import Mathlib

/-!
Shallow embedding of the wrapped-party data-collection app (`app.py`).

The app fetches a user's top artists and tracks from the streaming
provider for three time windows, flattens them into CSV tables, writes
them locally and optionally mirrors them to a remote Drive folder.

Modelling conventions:
* Provider JSON objects become structures with `Option`-valued fields
  (a `none` models a missing key or an explicit `null`).
* The Spotify client `sp` is a pure oracle: a function from the request
  parameters to the returned item list.
* The remote store (`drive_service` plus Google Drive itself) is a
  `Store` state: a folder table, per-operation fault injection, and an
  id supply.  `driveOn : Bool` models whether the global client was
  initialized.
* Side effects (makedirs, CSV writes, Drive calls, the caught-upload
  log line) are recorded as an explicit `Event` trace.
* A Python exception is an `Except PyErr` result; state and events
  produced before the raise are kept, as the Python globals would be.
-/

namespace WrappedParty

/-- A provider artist object: a dict with optional `name` / `id` keys. -/
structure ArtistObj where
  name : Option String
  id : Option String
deriving Repr, DecidableEq

/-- A provider track object: optional `name` / `id` keys and an
`artists` field that may be missing/null (`none`), or a (possibly
empty) list of artist objects. -/
structure TrackObj where
  name : Option String
  artistsField : Option (List ArtistObj)
  id : Option String
deriving Repr, DecidableEq

/-- The Spotify client oracle: responses of
`current_user_top_artists(limit, time_range)` and
`current_user_top_tracks(limit, offset, time_range)`. -/
structure Sp where
  topArtistsItems : Nat → String → List ArtistObj
  topTracksItems : Nat → Nat → String → List TrackObj

/-- `get_top_tracks`'s while-loop (`app.py` lines 146-158), with the
accumulators `results` and `fetched` of the source, plus an extra
`reqs` accumulator recording each `(limit, offset)` request issued. -/
def get_top_tracksAux (sp : Sp) (time_range : String) (total_limit fetched : Nat)
    (results : List TrackObj) (reqs : List (Nat × Nat)) :
    List TrackObj × List (Nat × Nat) :=
  if h : fetched < total_limit then
    let lim := min 50 (total_limit - fetched)
    let batch := sp.topTracksItems lim fetched time_range
    if hb : batch = [] then
      (results, reqs ++ [(lim, fetched)])
    else
      get_top_tracksAux sp time_range total_limit (fetched + batch.length)
        (results ++ batch) (reqs ++ [(lim, fetched)])
  else
    (results, reqs)
termination_by total_limit - fetched
decreasing_by
  exact Nat.sub_lt_sub_left h
    (Nat.lt_add_of_pos_right (List.length_pos.mpr hb))

/-- `get_top_tracks(time_range, total_limit)`: the collected track
list (`app.py` lines 146-158). -/
def get_top_tracks (sp : Sp) (time_range : String) (total_limit : Nat := 100) :
    List TrackObj :=
  (get_top_tracksAux sp time_range total_limit 0 [] []).1

/-- The same while-loop run on explicit fuel: `none` means the loop
did not finish within `fuel` iterations. -/
def get_top_tracksFuel (sp : Sp) (time_range : String) (fuel total_limit fetched : Nat)
    (results : List TrackObj) : Option (List TrackObj) :=
  match fuel with
  | 0 => none
  | fuel + 1 =>
    if fetched < total_limit then
      let batch := sp.topTracksItems (min 50 (total_limit - fetched)) fetched time_range
      if batch = [] then
        some results
      else
        get_top_tracksFuel sp time_range fuel total_limit (fetched + batch.length)
          (results ++ batch)
    else
      some results

/-- Python's `x or y` for an optional-list value: `y` when `x` is
`None`/missing or the empty list (both falsy), else the list itself. -/
def pyOr (x : Option (List ArtistObj)) (y : List ArtistObj) : List ArtistObj :=
  match x with
  | none => y
  | some l => if l.isEmpty then y else l

/-- The empty dict `{}` from the `[{}]` fallback in the track row
comprehension: an artist object with no keys. -/
def emptyArtistObj : ArtistObj := ⟨none, none⟩

/-- One track row of the comprehension in `save_all_user_data`
(`app.py` lines 189-194): `[0]`-indexing is modelled by `head?`, so a
`none` result would be Python's `IndexError`. -/
def trackRow (i : Nat) (t : TrackObj) : Option (List String) :=
  (pyOr t.artistsField [emptyArtistObj]).head?.map fun a =>
    [toString (i + 1), t.name.getD "", a.name.getD "", t.id.getD ""]

/-- A written CSV table: header and data rows. -/
structure Csv where
  header : List String
  rows : List (List String)
deriving Repr, DecidableEq

/-- The track `DataFrame` (`app.py` lines 187-197): rows built from
`enumerate(tracks)`, columns in dict-key order. -/
def trackDf (tracks : List TrackObj) : Option Csv :=
  (tracks.enum.mapM fun p => trackRow p.1 p.2).map fun rows =>
    ⟨["Rank", "Track", "Artist", "ID"], rows⟩

/-- The artist `DataFrame` (`app.py` lines 171-176): rows built from
`enumerate(artists)`, columns in dict-key order. -/
def artistDf (artists : List ArtistObj) : Csv :=
  ⟨["Rank", "Artist", "ID"],
    artists.enum.map fun p =>
      [toString (p.1 + 1), p.2.name.getD "", p.2.id.getD ""]⟩

/-- `os.path.join` for the paths this app builds (no absolute/empty
segments occur). -/
def pathJoin (a b : String) : String := a ++ "/" ++ b

/-- `os.path.dirname`: everything before the last `/`. -/
def dirname (p : String) : String :=
  String.intercalate "/" ((p.splitOn "/").dropLast)

/-- A Python exception value: the explicit `RuntimeError` raised by
`upload_to_drive`, an error raised by a Drive API call, or an
`IndexError` from list indexing. -/
inductive PyErr where
  | runtimeError (msg : String)
  | apiError (msg : String)
  | indexError (msg : String)
deriving Repr, DecidableEq

/-- A remote folder as the Drive API reports it: id, name, parents. -/
structure Folder where
  id : String
  name : String
  parents : List String
deriving Repr, DecidableEq

/-- The folder query `get_or_create_user_folder` builds (`app.py`
lines 71-73): exact name match, folder mime type, and a parent
constraint when `FOLDER_ID` is configured (`parentFilter = ""` means
no parent constraint). -/
structure Query where
  name : String
  parentFilter : String
deriving Repr, DecidableEq

/-- Whether a folder satisfies the query. -/
def Folder.matchesQ (f : Folder) (q : Query) : Bool :=
  f.name == q.name && (q.parentFilter == "" || f.parents.contains q.parentFilter)

/-- The remote Drive store: its folder table, an id supply for
creations, fault injection for each API call kind, and the log of
uploaded files. -/
structure Store where
  folders : List Folder
  mkId : Nat → String
  created : Nat
  listFault : Option String
  createFolderFault : Option String
  uploadFault : String → Option String
  uploads : List (String × String)

/-- `files().list(...).execute()` with `pageSize=5`: the first five
matching folders, or the injected fault. -/
def Store.listCallResult (s : Store) (q : Query) : Except PyErr (List Folder) :=
  match s.listFault with
  | some e => Except.error (PyErr.apiError e)
  | none => Except.ok ((s.folders.filter fun f => f.matchesQ q).take 5)

/-- `files().create(...)` for a folder: a fresh folder appended to the
store, or the injected fault. -/
def Store.createFolderCallResult (s : Store) (nm : String) (parents : List String) :
    Except PyErr (Folder × Store) :=
  match s.createFolderFault with
  | some e => Except.error (PyErr.apiError e)
  | none =>
    let f : Folder := ⟨s.mkId s.created, nm, parents⟩
    Except.ok (f, { s with folders := s.folders ++ [f], created := s.created + 1 })

/-- `files().create(...)` for a file upload: records the upload and
returns the new file id, or the injected fault (keyed by filename). -/
def Store.uploadCallResult (s : Store) (filename parent : String) :
    Except PyErr (String × Store) :=
  match s.uploadFault filename with
  | some e => Except.error (PyErr.apiError e)
  | none =>
    Except.ok (s.mkId s.created,
      { s with uploads := s.uploads ++ [(filename, parent)], created := s.created + 1 })

/-- An observable side effect of the pipeline. -/
inductive Event where
  | makedirs (path : String)
  | writeCsv (path : String) (df : Csv)
  | listCall (q : Query)
  | createFolderCall (nm : String) (parents : List String)
  | uploadCall (filepath filename parent : String)
  | logUploadFailed (filename : String) (e : PyErr)
deriving Repr, DecidableEq

/-- `get_or_create_user_folder` (`app.py` lines 66-99), over an
explicit store and an explicit `driveOn` flag for the global
`drive_service`.  Returns the new store, the events, and either the
folder id or the propagated exception. -/
def get_or_create_user_folder (driveOn : Bool) (FOLDER_ID : String) (s : Store)
    (custom_name : String) : Store × List Event × Except PyErr String :=
  if driveOn = false then
    (s, [], Except.ok "")
  else
    let q : Query := ⟨custom_name, FOLDER_ID⟩
    match s.listCallResult q with
    | Except.error e => (s, [Event.listCall q], Except.error e)
    | Except.ok folders =>
      match folders with
      | f :: _ => (s, [Event.listCall q], Except.ok f.id)
      | [] =>
        let parents := if FOLDER_ID = "" then [] else [FOLDER_ID]
        match s.createFolderCallResult custom_name parents with
        | Except.error e =>
          (s, [Event.listCall q, Event.createFolderCall custom_name parents],
            Except.error e)
        | Except.ok (f, s1) =>
          (s1, [Event.listCall q, Event.createFolderCall custom_name parents],
            Except.ok f.id)

/-- `upload_to_drive` (`app.py` lines 102-123): empty handle when the
client is uninitialized, `RuntimeError` on an empty parent id, else
the Drive create call. -/
def upload_to_drive (driveOn : Bool) (s : Store) (filepath filename parent_id : String) :
    Store × List Event × Except PyErr String :=
  if driveOn = false then
    (s, [], Except.ok "")
  else if parent_id = "" then
    (s, [], Except.error (PyErr.runtimeError "upload_to_drive called without parent_id"))
  else
    match s.uploadCallResult filename parent_id with
    | Except.error e =>
      (s, [Event.uploadCall filepath filename parent_id], Except.error e)
    | Except.ok (fid, s1) =>
      (s1, [Event.uploadCall filepath filename parent_id], Except.ok fid)

/-- `save_and_upload` (`app.py` lines 126-135): makedirs on the
dirname, CSV write, then the upload wrapped in `try/except` with the
failure logged.  Never raises. -/
def save_and_upload (driveOn : Bool) (s : Store) (df : Csv)
    (filepath filename parent_id : String) : Store × List Event :=
  let evs := [Event.makedirs (dirname filepath), Event.writeCsv filepath df]
  match upload_to_drive driveOn s filepath filename parent_id with
  | (s1, evs1, Except.error e) =>
    (s1, evs ++ evs1 ++ [Event.logUploadFailed filename e])
  | (s1, evs1, Except.ok _) => (s1, evs ++ evs1)

/-- The drive filename `f"{spotify_username}_{tr}_{slot}.csv"`. -/
def driveFileName (spotify_username tr slot : String) : String :=
  spotify_username ++ "_" ++ tr ++ "_" ++ slot ++ ".csv"

/-- One iteration of the `for tr in time_ranges` loop of
`save_all_user_data` (`app.py` lines 163-203): makedirs for the range
directory, the artist fetch/export, then the paginated track
fetch/export.  A previously raised exception in the accumulator is
passed through (the loop would not have run). -/
def processRange (driveOn : Bool) (sp : Sp) (spotify_username user_folder_id : String)
    (user_dir : String) (s : Store) (tr : String) :
    Store × List Event × Except PyErr Unit :=
  let range_dir := pathJoin user_dir tr
  let ev0 := [Event.makedirs range_dir]
  let artists := sp.topArtistsItems 20 tr
  let s_ev1 :=
    if artists.isEmpty then (s, ev0)
    else
      let r := save_and_upload driveOn s (artistDf artists)
        (pathJoin range_dir "artists.csv")
        (driveFileName spotify_username tr "artists") user_folder_id
      (r.1, ev0 ++ r.2)
  let tracks := get_top_tracks sp tr 100
  if tracks.isEmpty then (s_ev1.1, s_ev1.2, Except.ok ())
  else
    match trackDf tracks with
    | none =>
      (s_ev1.1, s_ev1.2, Except.error (PyErr.indexError "list index out of range"))
    | some df =>
      let r := save_and_upload driveOn s_ev1.1 df
        (pathJoin range_dir "tracks.csv")
        (driveFileName spotify_username tr "tracks") user_folder_id
      (r.1, s_ev1.2 ++ r.2, Except.ok ())

/-- The `for tr in time_ranges` loop: an exception aborts the
remaining iterations. -/
def runRanges (driveOn : Bool) (sp : Sp) (spotify_username user_folder_id user_dir : String) :
    List String → Store → Store × List Event × Except PyErr Unit
  | [], s => (s, [], Except.ok ())
  | tr :: rest, s =>
    match processRange driveOn sp spotify_username user_folder_id user_dir s tr with
    | (s1, evs1, Except.error e) => (s1, evs1, Except.error e)
    | (s1, evs1, Except.ok _) =>
      let r := runRanges driveOn sp spotify_username user_folder_id user_dir rest s1
      (r.1, evs1 ++ r.2.1, r.2.2)

/-- The three time windows iterated by `save_all_user_data`. -/
def time_ranges : List String := ["short_term", "medium_term", "long_term"]

/-- `save_all_user_data` (`app.py` lines 141-203): makedirs for the
user directory, folder resolution (errors propagate — it is not inside
a `try`), then the per-window loop. -/
def save_all_user_data (driveOn : Bool) (FOLDER_ID : String) (s : Store) (sp : Sp)
    (spotify_username custom_name : String) :
    Store × List Event × Except PyErr Unit :=
  let user_dir := pathJoin "data" spotify_username
  let ev0 := [Event.makedirs user_dir]
  match get_or_create_user_folder driveOn FOLDER_ID s custom_name with
  | (s1, evs1, Except.error e) => (s1, ev0 ++ evs1, Except.error e)
  | (s1, evs1, Except.ok user_folder_id) =>
    let r := runRanges driveOn sp spotify_username user_folder_id user_dir time_ranges s1
    (r.1, ev0 ++ evs1 ++ r.2.1, r.2.2)

/-- The session dict entries `summary` reads. -/
structure SessionData where
  spotify_token : Option String
  display_name : Option String
deriving Repr, DecidableEq

/-- The possible responses of the `summary` route. -/
inductive SummaryResponse where
  | redirectTo (endpoint : String)
  | page (display_name time_range : String)
      (artists : List ArtistObj) (tracks : List TrackObj)
deriving Repr

/-- Python truthiness of `session.get(...)` for a string slot:
falsy when absent or the empty string. -/
def pyTruthyStr (x : Option String) : Bool :=
  match x with
  | none => false
  | some s => !s.isEmpty

/-- The `/summary` route (`app.py` lines 259-279): redirect to the
landing page without a token, else render the page for the requested
time window (defaulting to `medium_term`). -/
def summary (sess : SessionData) (args : List (String × String)) (sp : Sp) :
    SummaryResponse :=
  if pyTruthyStr sess.spotify_token = false then
    SummaryResponse.redirectTo "index"
  else
    let display_name := sess.display_name.getD "Unknown User"
    let time_range := ((args.lookup "time_range").getD "medium_term")
    SummaryResponse.page display_name time_range
      (sp.topArtistsItems 10 time_range) (sp.topTracksItems 10 0 time_range)

/-- The value the track comprehension computes for one row. -/
def trackRowCells (i : Nat) (t : TrackObj) : List String :=
  [toString (i + 1), t.name.getD "",
    (match t.artistsField with
     | none => ""
     | some [] => ""
     | some (a :: _) => a.name.getD ""), t.id.getD ""]

/-- The CSV the track slot of a window exports. -/
def trackCsvOf (sp : Sp) (tr : String) : Csv :=
  ⟨["Rank", "Track", "Artist", "ID"],
    (get_top_tracks sp tr 100).enum.map fun p => trackRowCells p.1 p.2⟩

/-- A concrete provider for concrete runs: one artist and three
tracks for `short_term` and `medium_term`, nothing for `long_term`. -/
def wSp : Sp :=
  ⟨fun _ tr => if tr = "long_term" then [] else [⟨some "A1", some "id1"⟩],
   fun lim off tr =>
     if tr = "long_term" then []
     else (List.range (min lim (3 - off))).map fun k =>
       ⟨some ("T" ++ toString (off + k)), some [⟨some "A1", none⟩],
        some ("t" ++ toString (off + k))⟩⟩

/-- A concrete fault-free store with non-empty ids. -/
def wStore : Store :=
  ⟨[], fun _ => "fid0", 0, none, none, fun _ => none, []⟩

/-- A concrete store whose folder-creation call fails. -/
def cexStore : Store :=
  ⟨[], fun _ => "fid0", 0, none, some "boom", fun _ => none, []⟩

/-- A concrete store where uploading the short-term artist file fails. -/
def wStoreFault : Store :=
  ⟨[], fun _ => "fid0", 0, none, none,
   fun fn => if fn = "U_short_term_artists.csv" then some "neterr" else none, []⟩

/-- A concrete provider with a mixed window shape: `short_term` has an
artist but no tracks, `medium_term` has a track but no artists,
`long_term` has neither. -/
def wSpMixed : Sp :=
  ⟨fun _ tr => if tr = "short_term" then [⟨some "A1", some "id1"⟩] else [],
   fun _ off tr =>
     if tr = "medium_term" then
       if off = 0 then [⟨some "T0", some [⟨some "A1", none⟩], some "t0"⟩] else []
     else []⟩


/-! ## Lemmas about the track pagination loop -/

/-- The request trace only grows: the accumulator is a prefix of the
final trace. -/
theorem get_top_tracksAux_reqs_prefix (sp : Sp) (tr : String) (total : Nat) :
    ∀ fetched results reqs, ∃ new,
      (get_top_tracksAux sp tr total fetched results reqs).2 = reqs ++ new := by
  intro fetched results reqs
  induction fetched, results, reqs using get_top_tracksAux.induct sp tr total with
  | case1 fetched results reqs hlt lim batch hb =>
    have hb2 : sp.topTracksItems (50 ⊓ (total - fetched)) fetched tr = [] := hb
    refine ⟨[(50 ⊓ (total - fetched), fetched)], ?_⟩
    rw [get_top_tracksAux]
    simp only [dif_pos hlt]
    simp [hb2]
  | case2 fetched results reqs hlt lim batch hb ih =>
    obtain ⟨new, hnew⟩ := ih
    refine ⟨(lim, fetched) :: new, ?_⟩
    rw [get_top_tracksAux]
    simp only [dif_pos hlt]
    simp only [dif_neg hb]
    rw [hnew]
    simp
  | case3 fetched results reqs hlt =>
    refine ⟨[], ?_⟩
    rw [get_top_tracksAux]
    simp [hlt]

/-- If every provider response honours its requested page size, the
loop collects at most `total_limit` items. -/
theorem get_top_tracksAux_length_le (sp : Sp) (tr : String) (total : Nat)
    (hsp : ∀ lim off w, (sp.topTracksItems lim off w).length ≤ lim) :
    ∀ fetched results reqs, fetched = results.length → fetched ≤ total →
      ((get_top_tracksAux sp tr total fetched results reqs).1).length ≤ total := by
  intro fetched results reqs
  induction fetched, results, reqs using get_top_tracksAux.induct sp tr total with
  | case1 fetched results reqs hlt lim batch hb =>
    intro hlen _
    have hb2 : sp.topTracksItems (50 ⊓ (total - fetched)) fetched tr = [] := hb
    rw [get_top_tracksAux]
    simp only [dif_pos hlt]
    simp [hb2]
    omega
  | case2 fetched results reqs hlt lim batch hb ih =>
    intro hlen hle
    rw [get_top_tracksAux]
    simp only [dif_pos hlt]
    simp only [dif_neg hb]
    refine ih ?_ ?_
    · rw [List.length_append, hlen]
    · show fetched + (sp.topTracksItems (50 ⊓ (total - fetched)) fetched tr).length ≤ total
      have h50 : (50 : Nat) ⊓ (total - fetched) ≤ total - fetched :=
        Nat.min_le_right _ _
      have hb2 : (sp.topTracksItems (50 ⊓ (total - fetched)) fetched tr).length
          ≤ 50 ⊓ (total - fetched) := hsp _ _ _
      omega
  | case3 fetched results reqs hlt =>
    intro hlen hle
    rw [get_top_tracksAux]
    simp [hlt]
    omega

/-- Every request issued by the loop asks for at most 50 items. -/
theorem get_top_tracksAux_req_le (sp : Sp) (tr : String) (total : Nat) :
    ∀ fetched results reqs,
      ∀ p ∈ (get_top_tracksAux sp tr total fetched results reqs).2,
        p ∈ reqs ∨ p.1 ≤ 50 := by
  intro fetched results reqs
  induction fetched, results, reqs using get_top_tracksAux.induct sp tr total with
  | case1 fetched results reqs hlt lim batch hb =>
    intro p hp
    have hb2 : sp.topTracksItems (50 ⊓ (total - fetched)) fetched tr = [] := hb
    rw [get_top_tracksAux] at hp
    simp only [dif_pos hlt] at hp
    simp [hb2] at hp
    rcases hp with hp | hp
    · exact Or.inl hp
    · right
      simp [hp]
  | case2 fetched results reqs hlt lim batch hb ih =>
    intro p hp
    rw [get_top_tracksAux] at hp
    simp only [dif_pos hlt] at hp
    simp only [dif_neg hb] at hp
    rcases ih p hp with h | h
    · rcases List.mem_append.mp h with h | h
      · exact Or.inl h
      · right
        simp at h
        rw [h]
        exact Nat.min_le_left _ _
    · exact Or.inr h
  | case3 fetched results reqs hlt =>
    intro p hp
    rw [get_top_tracksAux] at hp
    simp [hlt] at hp
    exact Or.inl hp

/-- Any request of the final trace that is not the last one received a
non-empty response: the loop stops as soon as a page comes back empty. -/
theorem get_top_tracksAux_stops_on_empty (sp : Sp) (tr : String) (total : Nat) :
    ∀ fetched results reqs,
      ∀ i p, ((get_top_tracksAux sp tr total fetched results reqs).2)[i]? = some p →
        i + 1 < (get_top_tracksAux sp tr total fetched results reqs).2.length →
        i < reqs.length ∨ sp.topTracksItems p.1 p.2 tr ≠ [] := by
  intro fetched results reqs
  induction fetched, results, reqs using get_top_tracksAux.induct sp tr total with
  | case1 fetched results reqs hlt lim batch hb =>
    intro i p hget hlt2
    have hb2 : sp.topTracksItems (50 ⊓ (total - fetched)) fetched tr = [] := hb
    rw [get_top_tracksAux] at hlt2
    simp only [dif_pos hlt] at hlt2
    simp [hb2] at hlt2
    omega
  | case2 fetched results reqs hlt lim batch hb ih =>
    intro i p hget hlt2
    have hb2 : ¬sp.topTracksItems (50 ⊓ (total - fetched)) fetched tr = [] := hb
    rw [get_top_tracksAux] at hget hlt2
    simp only [dif_pos hlt] at hget hlt2
    simp only [dif_neg hb] at hget hlt2
    rcases ih i p hget hlt2 with h | h
    · rcases Nat.lt_or_ge i reqs.length with h2 | h2
      · exact Or.inl h2
      · right
        have hi : i = reqs.length := by
          simp at h
          omega
        obtain ⟨new, hnew⟩ := get_top_tracksAux_reqs_prefix sp tr total
          (fetched + (sp.topTracksItems (50 ⊓ (total - fetched)) fetched tr).length)
          (results ++ sp.topTracksItems (50 ⊓ (total - fetched)) fetched tr)
          (reqs ++ [(50 ⊓ (total - fetched), fetched)])
        rw [hnew] at hget
        rw [List.append_assoc] at hget
        rw [List.getElem?_append_right (by omega)] at hget
        simp [hi] at hget
        rw [← hget]
        simpa using hb2
    · exact Or.inr h
  | case3 fetched results reqs hlt =>
    intro i p hget hlt2
    rw [get_top_tracksAux] at hget hlt2
    simp [hlt] at hget hlt2
    exact Or.inl (by omega)

/-- The collected list does not depend on the request-trace
accumulator (which only instruments the source loop). -/
theorem get_top_tracksAux_fst_irrel (sp : Sp) (tr : String) (total : Nat) :
    ∀ fetched results reqs reqs2,
      (get_top_tracksAux sp tr total fetched results reqs).1
        = (get_top_tracksAux sp tr total fetched results reqs2).1 := by
  intro fetched results reqs
  induction fetched, results, reqs using get_top_tracksAux.induct sp tr total with
  | case1 fetched results reqs hlt lim batch hb =>
    intro reqs2
    have hb2 : sp.topTracksItems (50 ⊓ (total - fetched)) fetched tr = [] := hb
    rw [get_top_tracksAux, get_top_tracksAux]
    simp only [dif_pos hlt]
    simp [hb2]
  | case2 fetched results reqs hlt lim batch hb ih =>
    intro reqs2
    rw [get_top_tracksAux, get_top_tracksAux]
    simp only [dif_pos hlt]
    simp only [dif_neg hb]
    exact ih _
  | case3 fetched results reqs hlt =>
    intro reqs2
    rw [get_top_tracksAux, get_top_tracksAux]
    simp [hlt]

/-- The fuel-instrumented loop finishes (returns `some`) whenever the
fuel exceeds `total_limit - fetched`, and computes the same list as
the source loop. -/
theorem get_top_tracksFuel_eq (sp : Sp) (tr : String) (total : Nat) :
    ∀ fuel fetched results, total - fetched < fuel →
      get_top_tracksFuel sp tr fuel total fetched results
        = some (get_top_tracksAux sp tr total fetched results []).1 := by
  intro fuel
  induction fuel with
  | zero => omega
  | succ n ih =>
    intro fetched results hfuel
    by_cases hlt : fetched < total
    · by_cases hb : sp.topTracksItems (min 50 (total - fetched)) fetched tr = []
      · rw [get_top_tracksFuel, get_top_tracksAux]
        simp [hlt, hb]
      · have hlen : 0 < (sp.topTracksItems (min 50 (total - fetched)) fetched tr).length :=
          List.length_pos.mpr hb
        have hR : (get_top_tracksAux sp tr total fetched results []).1
            = (get_top_tracksAux sp tr total
                (fetched + (sp.topTracksItems (min 50 (total - fetched)) fetched tr).length)
                (results ++ sp.topTracksItems (min 50 (total - fetched)) fetched tr) []).1 := by
          conv_lhs => rw [get_top_tracksAux]
          simp only [dif_pos hlt, dif_neg hb]
          exact get_top_tracksAux_fst_irrel sp tr total _ _ _ []
        rw [get_top_tracksFuel]
        simp only [if_pos hlt, if_neg hb]
        rw [ih _ _ (by omega), hR]
    · rw [get_top_tracksFuel, get_top_tracksAux]
      simp [hlt]

/-! ## Lemmas about the exported tables -/

/-- Building a track row never fails (`[0]` always hits an element),
and yields exactly `trackRowCells`. -/
theorem trackRow_eq_some (i : Nat) (t : TrackObj) :
    trackRow i t = some (trackRowCells i t) := by
  rcases h : t.artistsField with _ | (_ | ⟨a, l⟩) <;>
    simp [trackRow, trackRowCells, pyOr, h, emptyArtistObj]

/-- `mapM` over the always-successful track rows. -/
theorem enumFrom_mapM_trackRow (ts : List TrackObj) :
    ∀ n, (List.enumFrom n ts).mapM (fun p => trackRow p.1 p.2)
      = some ((List.enumFrom n ts).map fun p => trackRowCells p.1 p.2) := by
  induction ts with
  | nil => intro n; rfl
  | cons t ts ih =>
    intro n
    rw [show List.enumFrom n (t :: ts) = (n, t) :: List.enumFrom (n + 1) ts from rfl]
    rw [List.mapM_cons, trackRow_eq_some, ih (n + 1)]
    rfl

/-- The track `DataFrame` always builds, with the fixed header and one
`trackRowCells` row per track in order. -/
theorem trackDf_eq (ts : List TrackObj) :
    trackDf ts = some ⟨["Rank", "Track", "Artist", "ID"],
      ts.enum.map fun p => trackRowCells p.1 p.2⟩ := by
  unfold trackDf
  rw [show ts.enum = List.enumFrom 0 ts from rfl]
  rw [enumFrom_mapM_trackRow ts 0]
  rfl

/-- The Rank cells of enumerated rows are `n+1, n+2, ...` in order. -/
theorem enumFrom_rank_cells {α : Type} (h : Nat → α → List String)
    (hh : ∀ i t, (h i t).headD "" = toString (i + 1)) (ts : List α) :
    ∀ n, ((List.enumFrom n ts).map fun p => h p.1 p.2).map (fun r => r.headD "")
      = (List.range' n ts.length).map fun i => toString (i + 1) := by
  induction ts with
  | nil => intro n; simp
  | cons t ts ih =>
    intro n
    rw [show List.enumFrom n (t :: ts) = (n, t) :: List.enumFrom (n + 1) ts from rfl]
    simp only [List.length_cons]
    rw [List.range'_succ]
    simp only [List.map_cons]
    rw [hh n t, ih (n + 1)]

/-! ## String helpers for path and filename distinctness -/

/-- Appending on the left is cancellative for strings. -/
theorem strAppend_left_cancel {a b c : String} (h : a ++ b = a ++ c) : b = c := by
  have h2 : (a ++ b).data = (a ++ c).data := by rw [h]
  simp [String.data_append] at h2
  cases b
  cases c
  simp_all

/-- Two per-user file paths with different window/file suffixes are
different paths, whatever the user segment is. -/
theorem pathJoin_data_ne (u : String) {t1 f1 t2 f2 : String}
    (h : t1 ++ ("/" ++ f1) ≠ t2 ++ ("/" ++ f2)) :
    pathJoin (pathJoin (pathJoin "data" u) t1) f1
      ≠ pathJoin (pathJoin (pathJoin "data" u) t2) f2 := by
  unfold pathJoin
  intro heq
  simp only [String.append_assoc] at heq
  exact h (strAppend_left_cancel (strAppend_left_cancel
    (strAppend_left_cancel (strAppend_left_cancel heq))))

/-- Two drive filenames with different window/slot suffixes are
different, whatever the username is. -/
theorem driveFileName_ne (u : String) {t1 s1 t2 s2 : String}
    (h : "_" ++ (t1 ++ ("_" ++ (s1 ++ ".csv"))) ≠ "_" ++ (t2 ++ ("_" ++ (s2 ++ ".csv")))) :
    driveFileName u t1 s1 ≠ driveFileName u t2 s2 := by
  unfold driveFileName
  intro heq
  simp only [String.append_assoc] at heq
  exact h (strAppend_left_cancel heq)

/-! ## Lemmas about the remote-store helpers -/

/-- With an uninitialized client, folder resolution is a no-op
returning the empty handle. -/
theorem get_or_create_user_folder_off (F : String) (s : Store) (c : String) :
    get_or_create_user_folder false F s c = (s, [], Except.ok "") := rfl

/-- With an uninitialized client, upload is a no-op returning the
empty handle (before the `parent_id` check). -/
theorem upload_to_drive_off (s : Store) (fp fn pid : String) :
    upload_to_drive false s fp fn pid = (s, [], Except.ok "") := rfl

/-- Folder resolution emits only list/create-folder calls: it writes
no file and uploads nothing. -/
theorem get_or_create_user_folder_event_kinds (d : Bool) (F : String) (s : Store)
    (c : String) :
    ∀ e ∈ (get_or_create_user_folder d F s c).2.1,
      (∃ q, e = Event.listCall q) ∨ (∃ nm ps, e = Event.createFolderCall nm ps) := by
  intro e he
  unfold get_or_create_user_folder at he
  by_cases hd : d = false
  · simp [hd] at he
  · simp only [if_neg hd] at he
    unfold Store.listCallResult at he
    rcases hl : s.listFault with _ | msg
    · rw [hl] at he
      simp only at he
      rcases hL : (s.folders.filter fun f => f.matchesQ ⟨c, F⟩).take 5 with _ | ⟨f, rest⟩
      · rw [hL] at he
        unfold Store.createFolderCallResult at he
        rcases hc : s.createFolderFault with _ | msg2 <;> rw [hc] at he <;>
          simp at he <;> rcases he with he | he <;> simp [he]
      · rw [hL] at he
        simp at he
        simp [he]
    · rw [hl] at he
      simp at he
      simp [he]

/-- When the store's ids are all non-empty, a successful folder
resolution never returns the empty handle. -/
theorem get_or_create_user_folder_id_ne (F : String) (s : Store) (c : String)
    (hf : ∀ f ∈ s.folders, f.id ≠ "") (hm : ∀ n, s.mkId n ≠ "") :
    ∀ s1 evs id, get_or_create_user_folder true F s c = (s1, evs, Except.ok id) →
      id ≠ "" := by
  intro s1 evs id h
  unfold get_or_create_user_folder at h
  simp only [Bool.true_eq_false, if_neg] at h
  unfold Store.listCallResult at h
  rcases hl : s.listFault with _ | msg
  · rw [hl] at h
    simp only at h
    rcases hL : (s.folders.filter fun f => f.matchesQ ⟨c, F⟩).take 5 with _ | ⟨f, rest⟩
    · rw [hL] at h
      unfold Store.createFolderCallResult at h
      rcases hc : s.createFolderFault with _ | msg2 <;> rw [hc] at h <;> simp at h
      rw [← h.2.2]
      exact hm _
    · rw [hL] at h
      simp at h
      rw [← h.2.2]
      refine hf f ?_
      exact List.mem_of_mem_filter (List.mem_of_mem_take (hL ▸ List.mem_cons_self f rest))
  · rw [hl] at h
    simp at h

/-- A freshly created folder matches the query it was created for. -/
theorem created_folder_matches (s : Store) (c F : String) :
    Folder.matchesQ ⟨s.mkId s.created, c, if F = "" then [] else [F]⟩ ⟨c, F⟩ = true := by
  by_cases hF : F = "" <;> simp [Folder.matchesQ, hF]

/-- Folder resolution is idempotent in the absence of faults and
concurrent modification: the first call succeeds with some handle, and
a second call with the same name and parent returns the same handle
from the unchanged store, performing a list call but no creation. -/
theorem get_or_create_user_folder_idem (F : String) (s : Store) (c : String)
    (hl : s.listFault = none) (hc : s.createFolderFault = none) :
    ∃ id s1 evs1,
      get_or_create_user_folder true F s c = (s1, evs1, Except.ok id)
      ∧ get_or_create_user_folder true F s1 c
          = (s1, [Event.listCall ⟨c, F⟩], Except.ok id) := by
  rcases hL : (s.folders.filter fun f => f.matchesQ ⟨c, F⟩).take 5 with _ | ⟨f, rest⟩
  · -- not found: the first call creates, the second finds the creation
    have hempty : s.folders.filter (fun f => f.matchesQ ⟨c, F⟩) = [] := by
      rcases List.take_eq_nil_iff.mp hL with h | h
      · exact absurd h (by norm_num)
      · exact h
    have hps : ∃ ps : List String, ps = if F = "" then [] else [F] := ⟨_, rfl⟩
    obtain ⟨ps, hpsdef⟩ := hps
    have f0 : Folder := ⟨s.mkId s.created, c, ps⟩
    have hs2 : ∃ s2 : Store, s2 = ⟨s.folders ++ [⟨s.mkId s.created, c, ps⟩], s.mkId,
        s.created + 1, s.listFault, s.createFolderFault, s.uploadFault, s.uploads⟩ :=
      ⟨_, rfl⟩
    obtain ⟨s2, hs2def⟩ := hs2
    refine ⟨s.mkId s.created, s2,
      [Event.listCall ⟨c, F⟩, Event.createFolderCall c ps], ?_, ?_⟩
    · unfold get_or_create_user_folder Store.listCallResult Store.createFolderCallResult
      rw [hl, hc]
      simp [hL, hs2def, hpsdef]
      exact ⟨hl.symm, hc.symm⟩
    · unfold get_or_create_user_folder Store.listCallResult
      rw [show s2.listFault = s.listFault from by rw [hs2def]]
      rw [hl]
      simp only
      rw [show s2.folders = s.folders ++ [⟨s.mkId s.created, c, ps⟩] from by rw [hs2def]]
      rw [List.filter_append, hempty]
      rw [show (List.filter (fun f => f.matchesQ ⟨c, F⟩)
          [(⟨s.mkId s.created, c, ps⟩ : Folder)])
        = [⟨s.mkId s.created, c, ps⟩] from by
          rw [hpsdef]
          simp [created_folder_matches s c F]]
      simp
  · -- found: both calls return the first match, unchanged store
    refine ⟨f.id, s, [Event.listCall ⟨c, F⟩], ?_, ?_⟩
    · unfold get_or_create_user_folder Store.listCallResult
      rw [hl]
      simp [hL]
    · unfold get_or_create_user_folder Store.listCallResult
      rw [hl]
      simp [hL]

/-- With an initialized client and a non-empty parent, an upload never
raises the missing-parent `RuntimeError`. -/
theorem upload_to_drive_no_runtime (d : Bool) (s : Store) (fp fn pid : String)
    (hor : d = false ∨ pid ≠ "") :
    ∀ m, (upload_to_drive d s fp fn pid).2.2 ≠ Except.error (PyErr.runtimeError m) := by
  intro m
  unfold upload_to_drive
  rcases hor with hd | hpid
  · simp [hd]
  · by_cases hd : d = false
    · simp [hd]
    · simp only [if_neg hd, if_neg hpid]
      unfold Store.uploadCallResult
      rcases hu : s.uploadFault fn with _ | msg <;> simp [hu]

/-- Upload events are exactly one `uploadCall` when the client is on
and the parent non-empty. -/
theorem upload_to_drive_events_on (s : Store) (fp fn pid : String) (hpid : pid ≠ "") :
    (upload_to_drive true s fp fn pid).2.1 = [Event.uploadCall fp fn pid] := by
  unfold upload_to_drive
  simp only [Bool.true_eq_false, if_neg, if_neg hpid]
  unfold Store.uploadCallResult
  rcases hu : s.uploadFault fn with _ | msg <;> simp [hu]

/-- Every event of an upload call is the `uploadCall` record for its
own arguments. -/
theorem upload_to_drive_event_kinds (d : Bool) (s : Store) (fp fn pid : String) :
    ∀ e ∈ (upload_to_drive d s fp fn pid).2.1, e = Event.uploadCall fp fn pid := by
  intro e he
  unfold upload_to_drive at he
  by_cases hd : d = false
  · simp [hd] at he
  · simp only [if_neg hd] at he
    by_cases hpid : pid = ""
    · simp [hpid] at he
    · simp only [if_neg hpid] at he
      unfold Store.uploadCallResult at he
      rcases hu : s.uploadFault fn with _ | msg <;> rw [hu] at he <;> simp at he <;>
        exact he

/-- A faulty upload call reports the injected API error. -/
theorem upload_to_drive_fault (s : Store) (fp fn pid : String) (hpid : pid ≠ "")
    {m : String} (hm : s.uploadFault fn = some m) :
    (upload_to_drive true s fp fn pid).2.2 = Except.error (PyErr.apiError m) := by
  unfold upload_to_drive
  simp only [Bool.true_eq_false, if_neg, if_neg hpid]
  unfold Store.uploadCallResult
  simp [hm]

/-- Uploading never changes the fault configuration of the store. -/
theorem upload_to_drive_uploadFault (d : Bool) (s : Store) (fp fn pid : String) :
    (upload_to_drive d s fp fn pid).1.uploadFault = s.uploadFault := by
  unfold upload_to_drive
  by_cases hd : d = false
  · simp [hd]
  · simp only [if_neg hd]
    by_cases hpid : pid = ""
    · simp [hpid]
    · simp only [if_neg hpid]
      unfold Store.uploadCallResult
      rcases hu : s.uploadFault fn with _ | msg <;> simp [hu]

/-- `save_and_upload` in closed form: the local makedirs and CSV
write, then the upload events, then the log line if the upload raised. -/
theorem save_and_upload_shape (d : Bool) (s : Store) (df : Csv) (fp fn pid : String) :
    save_and_upload d s df fp fn pid
      = ((upload_to_drive d s fp fn pid).1,
         [Event.makedirs (dirname fp), Event.writeCsv fp df]
           ++ (upload_to_drive d s fp fn pid).2.1
           ++ (match (upload_to_drive d s fp fn pid).2.2 with
               | Except.error e => [Event.logUploadFailed fn e]
               | Except.ok _ => [])) := by
  unfold save_and_upload
  rcases h : upload_to_drive d s fp fn pid with ⟨s1, evs1, r⟩
  cases r <;> simp

/-- The only CSV write of `save_and_upload` is its own file. -/
theorem save_and_upload_writeCsv_kinds (d : Bool) (s : Store) (df : Csv)
    (fp fn pid : String) :
    ∀ p dfx, Event.writeCsv p dfx ∈ (save_and_upload d s df fp fn pid).2 →
      p = fp ∧ dfx = df := by
  intro p dfx hmem
  rw [save_and_upload_shape] at hmem
  simp at hmem
  rcases hmem with h | h | h
  · exact ⟨h.1, h.2⟩
  · have := upload_to_drive_event_kinds d s fp fn pid _ h
    simp at this
  · rcases hr : (upload_to_drive d s fp fn pid).2.2 with e | v <;> rw [hr] at h <;>
      simp at h

/-- The events of `save_and_upload` start with the directory creation
for the destination followed by the CSV write. -/
theorem save_and_upload_starts_with_write (d : Bool) (s : Store) (df : Csv)
    (fp fn pid : String) :
    ∃ tail, (save_and_upload d s df fp fn pid).2
      = Event.makedirs (dirname fp) :: Event.writeCsv fp df :: tail := by
  rw [save_and_upload_shape]
  exact ⟨_, rfl⟩

/-- Every upload-call event of `save_and_upload` carries its own
arguments. -/
theorem save_and_upload_upload_kinds (d : Bool) (s : Store) (df : Csv)
    (fp fn pid : String) :
    ∀ a b c2, Event.uploadCall a b c2 ∈ (save_and_upload d s df fp fn pid).2 →
      a = fp ∧ b = fn ∧ c2 = pid := by
  intro a b c2 hmem
  rw [save_and_upload_shape] at hmem
  simp at hmem
  rcases hmem with h | h
  · have := upload_to_drive_event_kinds d s fp fn pid _ h
    simp at this
    exact this
  · rcases hr : (upload_to_drive d s fp fn pid).2.2 with e | v <;> rw [hr] at h <;>
      simp at h

/-- Every upload-failure log of `save_and_upload` names its own
filename. -/
theorem save_and_upload_log_kinds (d : Bool) (s : Store) (df : Csv)
    (fp fn pid : String) :
    ∀ b er, Event.logUploadFailed b er ∈ (save_and_upload d s df fp fn pid).2 →
      b = fn := by
  intro b er hmem
  rw [save_and_upload_shape] at hmem
  simp at hmem
  rcases hmem with h | h
  · have := upload_to_drive_event_kinds d s fp fn pid _ h
    simp at this
  · rcases hr : (upload_to_drive d s fp fn pid).2.2 with e | v <;> rw [hr] at h <;>
      simp at h
    exact h.1

/-- When the client is on and the parent non-empty, `save_and_upload`
always attempts the upload: the `uploadCall` event is in its trace even
when the call then fails. -/
theorem save_and_upload_attempts (s : Store) (df : Csv) (fp fn pid : String)
    (hpid : pid ≠ "") :
    Event.uploadCall fp fn pid ∈ (save_and_upload true s df fp fn pid).2 := by
  rw [save_and_upload_shape]
  rw [upload_to_drive_events_on s fp fn pid hpid]
  simp

/-- A failed upload is caught and logged by `save_and_upload`. -/
theorem save_and_upload_logs_fault (s : Store) (df : Csv) (fp fn pid : String)
    (hpid : pid ≠ "") {m : String} (hm : s.uploadFault fn = some m) :
    Event.logUploadFailed fn (PyErr.apiError m) ∈ (save_and_upload true s df fp fn pid).2 := by
  rw [save_and_upload_shape]
  rw [upload_to_drive_fault s fp fn pid hpid hm]
  simp

/-- No `RuntimeError` is ever logged by `save_and_upload` when the
client is off or the parent non-empty. -/
theorem save_and_upload_no_runtime_log (d : Bool) (s : Store) (df : Csv)
    (fp fn pid : String) (hor : d = false ∨ pid ≠ "") :
    ∀ b m, Event.logUploadFailed b (PyErr.runtimeError m)
      ∉ (save_and_upload d s df fp fn pid).2 := by
  intro b m hmem
  rw [save_and_upload_shape] at hmem
  simp at hmem
  rcases hmem with h | h
  · have := upload_to_drive_event_kinds d s fp fn pid _ h
    simp at this
  · rcases hr : (upload_to_drive d s fp fn pid).2.2 with e | v <;> rw [hr] at h <;>
      simp at h
    rcases h with ⟨h1, h2⟩
    exact upload_to_drive_no_runtime d s fp fn pid hor m (by rw [hr, h2])

/-- `save_and_upload` preserves the fault configuration. -/
theorem save_and_upload_uploadFault (d : Bool) (s : Store) (df : Csv)
    (fp fn pid : String) :
    (save_and_upload d s df fp fn pid).1.uploadFault = s.uploadFault := by
  rw [save_and_upload_shape]
  exact upload_to_drive_uploadFault d s fp fn pid

/-! ## Lemmas about one loop iteration of `save_all_user_data` -/

/-- A window with no artists and no tracks only creates its directory. -/
theorem processRange_none (d : Bool) (sp : Sp) (u fid udir : String) (s : Store)
    (tr : String) (ha : sp.topArtistsItems 20 tr = [])
    (ht : get_top_tracks sp tr 100 = []) :
    processRange d sp u fid udir s tr
      = (s, [Event.makedirs (pathJoin udir tr)], Except.ok ()) := by
  unfold processRange
  rw [ha, ht]
  simp

/-- A window with artists but no tracks: directory creation then the
artist export. -/
theorem processRange_artOnly (d : Bool) (sp : Sp) (u fid udir : String) (s : Store)
    (tr : String) (ha : sp.topArtistsItems 20 tr ≠ [])
    (ht : get_top_tracks sp tr 100 = []) :
    processRange d sp u fid udir s tr
      = ((save_and_upload d s (artistDf (sp.topArtistsItems 20 tr))
            (pathJoin (pathJoin udir tr) "artists.csv") (driveFileName u tr "artists") fid).1,
         Event.makedirs (pathJoin udir tr)
           :: (save_and_upload d s (artistDf (sp.topArtistsItems 20 tr))
            (pathJoin (pathJoin udir tr) "artists.csv") (driveFileName u tr "artists") fid).2,
         Except.ok ()) := by
  unfold processRange
  rw [ht]
  rcases hA : sp.topArtistsItems 20 tr with _ | ⟨a, as⟩
  · exact absurd hA ha
  · simp

/-- A window with tracks but no artists: directory creation then the
track export. -/
theorem processRange_trackOnly (d : Bool) (sp : Sp) (u fid udir : String) (s : Store)
    (tr : String) (ha : sp.topArtistsItems 20 tr = [])
    (ht : get_top_tracks sp tr 100 ≠ []) :
    processRange d sp u fid udir s tr
      = ((save_and_upload d s (trackCsvOf sp tr)
            (pathJoin (pathJoin udir tr) "tracks.csv") (driveFileName u tr "tracks") fid).1,
         Event.makedirs (pathJoin udir tr)
           :: (save_and_upload d s (trackCsvOf sp tr)
            (pathJoin (pathJoin udir tr) "tracks.csv") (driveFileName u tr "tracks") fid).2,
         Except.ok ()) := by
  unfold processRange trackCsvOf
  rw [ha]
  rcases hT : get_top_tracks sp tr 100 with _ | ⟨t, ts⟩
  · exact absurd hT ht
  · simp [trackDf_eq]

/-- A window with both artists and tracks: directory creation, artist
export, then track export from the artist-updated store. -/
theorem processRange_both (d : Bool) (sp : Sp) (u fid udir : String) (s : Store)
    (tr : String) (ha : sp.topArtistsItems 20 tr ≠ [])
    (ht : get_top_tracks sp tr 100 ≠ []) :
    processRange d sp u fid udir s tr
      = ((save_and_upload d
            (save_and_upload d s (artistDf (sp.topArtistsItems 20 tr))
              (pathJoin (pathJoin udir tr) "artists.csv")
              (driveFileName u tr "artists") fid).1
            (trackCsvOf sp tr)
            (pathJoin (pathJoin udir tr) "tracks.csv") (driveFileName u tr "tracks") fid).1,
         Event.makedirs (pathJoin udir tr)
           :: ((save_and_upload d s (artistDf (sp.topArtistsItems 20 tr))
              (pathJoin (pathJoin udir tr) "artists.csv")
              (driveFileName u tr "artists") fid).2
             ++ (save_and_upload d
            (save_and_upload d s (artistDf (sp.topArtistsItems 20 tr))
              (pathJoin (pathJoin udir tr) "artists.csv")
              (driveFileName u tr "artists") fid).1
            (trackCsvOf sp tr)
            (pathJoin (pathJoin udir tr) "tracks.csv") (driveFileName u tr "tracks") fid).2),
         Except.ok ()) := by
  unfold processRange trackCsvOf
  rcases hA : sp.topArtistsItems 20 tr with _ | ⟨a, as⟩
  · exact absurd hA ha
  · rcases hT : get_top_tracks sp tr 100 with _ | ⟨t, ts⟩
    · exact absurd hT ht
    · simp [trackDf_eq]

/-- One loop iteration never raises. -/
theorem processRange_ok (d : Bool) (sp : Sp) (u fid udir : String) (s : Store)
    (tr : String) : (processRange d sp u fid udir s tr).2.2 = Except.ok () := by
  by_cases ha : sp.topArtistsItems 20 tr = [] <;>
    by_cases ht : get_top_tracks sp tr 100 = []
  · rw [processRange_none d sp u fid udir s tr ha ht]
  · rw [processRange_trackOnly d sp u fid udir s tr ha ht]
  · rw [processRange_artOnly d sp u fid udir s tr ha ht]
  · rw [processRange_both d sp u fid udir s tr ha ht]

/-- One loop iteration preserves the fault configuration. -/
theorem processRange_uploadFault (d : Bool) (sp : Sp) (u fid udir : String) (s : Store)
    (tr : String) : (processRange d sp u fid udir s tr).1.uploadFault = s.uploadFault := by
  by_cases ha : sp.topArtistsItems 20 tr = [] <;>
    by_cases ht : get_top_tracks sp tr 100 = []
  · rw [processRange_none d sp u fid udir s tr ha ht]
  · rw [processRange_trackOnly d sp u fid udir s tr ha ht]
    exact save_and_upload_uploadFault _ _ _ _ _ _
  · rw [processRange_artOnly d sp u fid udir s tr ha ht]
    exact save_and_upload_uploadFault _ _ _ _ _ _
  · rw [processRange_both d sp u fid udir s tr ha ht]
    rw [save_and_upload_uploadFault, save_and_upload_uploadFault]

/-- Every CSV write of one iteration is that window's artist or track
file, written only when the corresponding list is non-empty, with the
corresponding table. -/
theorem processRange_writeCsv_kinds (d : Bool) (sp : Sp) (u fid udir : String)
    (s : Store) (tr : String) :
    ∀ p dfx, Event.writeCsv p dfx ∈ (processRange d sp u fid udir s tr).2.1 →
      (p = pathJoin (pathJoin udir tr) "artists.csv" ∧ sp.topArtistsItems 20 tr ≠ []
          ∧ dfx = artistDf (sp.topArtistsItems 20 tr))
      ∨ (p = pathJoin (pathJoin udir tr) "tracks.csv" ∧ get_top_tracks sp tr 100 ≠ []
          ∧ dfx = trackCsvOf sp tr) := by
  intro p dfx hmem
  by_cases ha : sp.topArtistsItems 20 tr = [] <;>
    by_cases ht : get_top_tracks sp tr 100 = []
  · rw [processRange_none d sp u fid udir s tr ha ht] at hmem
    simp at hmem
  · rw [processRange_trackOnly d sp u fid udir s tr ha ht] at hmem
    simp at hmem
    right
    have := save_and_upload_writeCsv_kinds _ _ _ _ _ _ _ _ hmem
    exact ⟨this.1, ht, this.2⟩
  · rw [processRange_artOnly d sp u fid udir s tr ha ht] at hmem
    simp at hmem
    left
    have := save_and_upload_writeCsv_kinds _ _ _ _ _ _ _ _ hmem
    exact ⟨this.1, ha, this.2⟩
  · rw [processRange_both d sp u fid udir s tr ha ht] at hmem
    simp at hmem
    rcases hmem with h | h
    · left
      have := save_and_upload_writeCsv_kinds _ _ _ _ _ _ _ _ h
      exact ⟨this.1, ha, this.2⟩
    · right
      have := save_and_upload_writeCsv_kinds _ _ _ _ _ _ _ _ h
      exact ⟨this.1, ht, this.2⟩

/-- Every upload call of one iteration names that window's artist or
track export file, only for non-empty lists, always under `fid`. -/
theorem processRange_upload_kinds (d : Bool) (sp : Sp) (u fid udir : String)
    (s : Store) (tr : String) :
    ∀ a b c2, Event.uploadCall a b c2 ∈ (processRange d sp u fid udir s tr).2.1 →
      ((b = driveFileName u tr "artists" ∧ sp.topArtistsItems 20 tr ≠ [])
        ∨ (b = driveFileName u tr "tracks" ∧ get_top_tracks sp tr 100 ≠ []))
      ∧ c2 = fid := by
  intro a b c2 hmem
  by_cases ha : sp.topArtistsItems 20 tr = [] <;>
    by_cases ht : get_top_tracks sp tr 100 = []
  · rw [processRange_none d sp u fid udir s tr ha ht] at hmem
    simp at hmem
  · rw [processRange_trackOnly d sp u fid udir s tr ha ht] at hmem
    simp at hmem
    have := save_and_upload_upload_kinds _ _ _ _ _ _ _ _ _ hmem
    exact ⟨Or.inr ⟨this.2.1, ht⟩, this.2.2⟩
  · rw [processRange_artOnly d sp u fid udir s tr ha ht] at hmem
    simp at hmem
    have := save_and_upload_upload_kinds _ _ _ _ _ _ _ _ _ hmem
    exact ⟨Or.inl ⟨this.2.1, ha⟩, this.2.2⟩
  · rw [processRange_both d sp u fid udir s tr ha ht] at hmem
    simp at hmem
    rcases hmem with h | h
    · have := save_and_upload_upload_kinds _ _ _ _ _ _ _ _ _ h
      exact ⟨Or.inl ⟨this.2.1, ha⟩, this.2.2⟩
    · have := save_and_upload_upload_kinds _ _ _ _ _ _ _ _ _ h
      exact ⟨Or.inr ⟨this.2.1, ht⟩, this.2.2⟩

/-- A non-empty artist list gets its CSV written during the iteration. -/
theorem processRange_artist_written (d : Bool) (sp : Sp) (u fid udir : String)
    (s : Store) (tr : String) (ha : sp.topArtistsItems 20 tr ≠ []) :
    Event.writeCsv (pathJoin (pathJoin udir tr) "artists.csv")
        (artistDf (sp.topArtistsItems 20 tr))
      ∈ (processRange d sp u fid udir s tr).2.1 := by
  by_cases ht : get_top_tracks sp tr 100 = []
  · rw [processRange_artOnly d sp u fid udir s tr ha ht]
    obtain ⟨tail, htail⟩ := save_and_upload_starts_with_write d s
      (artistDf (sp.topArtistsItems 20 tr)) (pathJoin (pathJoin udir tr) "artists.csv")
      (driveFileName u tr "artists") fid
    rw [htail]
    simp
  · rw [processRange_both d sp u fid udir s tr ha ht]
    obtain ⟨tail, htail⟩ := save_and_upload_starts_with_write d s
      (artistDf (sp.topArtistsItems 20 tr)) (pathJoin (pathJoin udir tr) "artists.csv")
      (driveFileName u tr "artists") fid
    rw [htail]
    simp

/-- A non-empty track list gets its CSV written during the iteration. -/
theorem processRange_tracks_written (d : Bool) (sp : Sp) (u fid udir : String)
    (s : Store) (tr : String) (ht : get_top_tracks sp tr 100 ≠ []) :
    Event.writeCsv (pathJoin (pathJoin udir tr) "tracks.csv") (trackCsvOf sp tr)
      ∈ (processRange d sp u fid udir s tr).2.1 := by
  by_cases ha : sp.topArtistsItems 20 tr = []
  · rw [processRange_trackOnly d sp u fid udir s tr ha ht]
    obtain ⟨tail, htail⟩ := save_and_upload_starts_with_write d s
      (trackCsvOf sp tr) (pathJoin (pathJoin udir tr) "tracks.csv")
      (driveFileName u tr "tracks") fid
    rw [htail]
    simp
  · rw [processRange_both d sp u fid udir s tr ha ht]
    obtain ⟨tail, htail⟩ := save_and_upload_starts_with_write d
      (save_and_upload d s (artistDf (sp.topArtistsItems 20 tr))
        (pathJoin (pathJoin udir tr) "artists.csv") (driveFileName u tr "artists") fid).1
      (trackCsvOf sp tr) (pathJoin (pathJoin udir tr) "tracks.csv")
      (driveFileName u tr "tracks") fid
    rw [htail]
    simp

/-- With the client on and a non-empty folder handle, a non-empty
artist list always gets an upload attempt. -/
theorem processRange_artist_upload (sp : Sp) (u fid udir : String)
    (s : Store) (tr : String) (hfid : fid ≠ "") (ha : sp.topArtistsItems 20 tr ≠ []) :
    ∃ a, Event.uploadCall a (driveFileName u tr "artists") fid
      ∈ (processRange true sp u fid udir s tr).2.1 := by
  refine ⟨pathJoin (pathJoin udir tr) "artists.csv", ?_⟩
  by_cases ht : get_top_tracks sp tr 100 = []
  · rw [processRange_artOnly true sp u fid udir s tr ha ht]
    have := save_and_upload_attempts s (artistDf (sp.topArtistsItems 20 tr))
      (pathJoin (pathJoin udir tr) "artists.csv") (driveFileName u tr "artists") fid hfid
    simp [this]
  · rw [processRange_both true sp u fid udir s tr ha ht]
    have := save_and_upload_attempts s (artistDf (sp.topArtistsItems 20 tr))
      (pathJoin (pathJoin udir tr) "artists.csv") (driveFileName u tr "artists") fid hfid
    simp [this]

/-- With the client on and a non-empty folder handle, a non-empty
track list always gets an upload attempt. -/
theorem processRange_tracks_upload (sp : Sp) (u fid udir : String)
    (s : Store) (tr : String) (hfid : fid ≠ "") (ht : get_top_tracks sp tr 100 ≠ []) :
    ∃ a, Event.uploadCall a (driveFileName u tr "tracks") fid
      ∈ (processRange true sp u fid udir s tr).2.1 := by
  refine ⟨pathJoin (pathJoin udir tr) "tracks.csv", ?_⟩
  by_cases ha : sp.topArtistsItems 20 tr = []
  · rw [processRange_trackOnly true sp u fid udir s tr ha ht]
    have := save_and_upload_attempts s (trackCsvOf sp tr)
      (pathJoin (pathJoin udir tr) "tracks.csv") (driveFileName u tr "tracks") fid hfid
    simp [this]
  · rw [processRange_both true sp u fid udir s tr ha ht]
    have := save_and_upload_attempts
      (save_and_upload true s (artistDf (sp.topArtistsItems 20 tr))
        (pathJoin (pathJoin udir tr) "artists.csv") (driveFileName u tr "artists") fid).1
      (trackCsvOf sp tr)
      (pathJoin (pathJoin udir tr) "tracks.csv") (driveFileName u tr "tracks") fid hfid
    simp [this]

/-- A faulty artist upload is caught and logged during the iteration. -/
theorem processRange_artist_fault_logged (sp : Sp) (u fid udir : String)
    (s : Store) (tr : String) (hfid : fid ≠ "") (ha : sp.topArtistsItems 20 tr ≠ [])
    {m : String} (hm : s.uploadFault (driveFileName u tr "artists") = some m) :
    Event.logUploadFailed (driveFileName u tr "artists") (PyErr.apiError m)
      ∈ (processRange true sp u fid udir s tr).2.1 := by
  by_cases ht : get_top_tracks sp tr 100 = []
  · rw [processRange_artOnly true sp u fid udir s tr ha ht]
    have := save_and_upload_logs_fault s (artistDf (sp.topArtistsItems 20 tr))
      (pathJoin (pathJoin udir tr) "artists.csv") (driveFileName u tr "artists") fid hfid hm
    simp [this]
  · rw [processRange_both true sp u fid udir s tr ha ht]
    have := save_and_upload_logs_fault s (artistDf (sp.topArtistsItems 20 tr))
      (pathJoin (pathJoin udir tr) "artists.csv") (driveFileName u tr "artists") fid hfid hm
    simp [this]

/-- A faulty track upload is caught and logged during the iteration. -/
theorem processRange_tracks_fault_logged (sp : Sp) (u fid udir : String)
    (s : Store) (tr : String) (hfid : fid ≠ "") (ht : get_top_tracks sp tr 100 ≠ [])
    {m : String} (hm : s.uploadFault (driveFileName u tr "tracks") = some m) :
    Event.logUploadFailed (driveFileName u tr "tracks") (PyErr.apiError m)
      ∈ (processRange true sp u fid udir s tr).2.1 := by
  by_cases ha : sp.topArtistsItems 20 tr = []
  · rw [processRange_trackOnly true sp u fid udir s tr ha ht]
    have := save_and_upload_logs_fault s (trackCsvOf sp tr)
      (pathJoin (pathJoin udir tr) "tracks.csv") (driveFileName u tr "tracks") fid hfid hm
    simp [this]
  · rw [processRange_both true sp u fid udir s tr ha ht]
    have hm2 : (save_and_upload true s (artistDf (sp.topArtistsItems 20 tr))
        (pathJoin (pathJoin udir tr) "artists.csv")
        (driveFileName u tr "artists") fid).1.uploadFault
          (driveFileName u tr "tracks") = some m := by
      rw [save_and_upload_uploadFault]
      exact hm
    have := save_and_upload_logs_fault
      (save_and_upload true s (artistDf (sp.topArtistsItems 20 tr))
        (pathJoin (pathJoin udir tr) "artists.csv") (driveFileName u tr "artists") fid).1
      (trackCsvOf sp tr)
      (pathJoin (pathJoin udir tr) "tracks.csv") (driveFileName u tr "tracks") fid hfid hm2
    simp [this]

/-- No missing-parent `RuntimeError` is ever logged during an
iteration run with the client off or a non-empty folder handle. -/
theorem processRange_no_runtime_log (d : Bool) (sp : Sp) (u fid udir : String)
    (s : Store) (tr : String) (hor : d = false ∨ fid ≠ "") :
    ∀ b m, Event.logUploadFailed b (PyErr.runtimeError m)
      ∉ (processRange d sp u fid udir s tr).2.1 := by
  intro b m hmem
  by_cases ha : sp.topArtistsItems 20 tr = [] <;>
    by_cases ht : get_top_tracks sp tr 100 = []
  · rw [processRange_none d sp u fid udir s tr ha ht] at hmem
    simp at hmem
  · rw [processRange_trackOnly d sp u fid udir s tr ha ht] at hmem
    simp at hmem
    exact save_and_upload_no_runtime_log _ _ _ _ _ _ hor _ _ hmem
  · rw [processRange_artOnly d sp u fid udir s tr ha ht] at hmem
    simp at hmem
    exact save_and_upload_no_runtime_log _ _ _ _ _ _ hor _ _ hmem
  · rw [processRange_both d sp u fid udir s tr ha ht] at hmem
    simp at hmem
    rcases hmem with h | h
    · exact save_and_upload_no_runtime_log _ _ _ _ _ _ hor _ _ h
    · exact save_and_upload_no_runtime_log _ _ _ _ _ _ hor _ _ h

/-! ## Lemmas about the window loop -/

/-- One unfolding of the window loop. -/
theorem runRanges_cons (d : Bool) (sp : Sp) (u fid udir : String) (tr : String)
    (rest : List String) (s : Store) :
    runRanges d sp u fid udir (tr :: rest) s
      = ((runRanges d sp u fid udir rest (processRange d sp u fid udir s tr).1).1,
         (processRange d sp u fid udir s tr).2.1
           ++ (runRanges d sp u fid udir rest (processRange d sp u fid udir s tr).1).2.1,
         (runRanges d sp u fid udir rest (processRange d sp u fid udir s tr).1).2.2) := by
  rcases hpr : processRange d sp u fid udir s tr with ⟨s1, evs1, r⟩
  have hok := processRange_ok d sp u fid udir s tr
  rw [hpr] at hok
  simp at hok
  subst hok
  simp only [runRanges, hpr]

/-- The window loop never raises. -/
theorem runRanges_ok (d : Bool) (sp : Sp) (u fid udir : String) (l : List String) :
    ∀ s, (runRanges d sp u fid udir l s).2.2 = Except.ok () := by
  induction l with
  | nil => intro s; rfl
  | cons tr rest ih =>
    intro s
    rw [runRanges_cons]
    exact ih _

/-- The window loop preserves the fault configuration. -/
theorem runRanges_uploadFault (d : Bool) (sp : Sp) (u fid udir : String)
    (l : List String) :
    ∀ s, (runRanges d sp u fid udir l s).1.uploadFault = s.uploadFault := by
  induction l with
  | nil => intro s; rfl
  | cons tr rest ih =>
    intro s
    rw [runRanges_cons]
    rw [ih]
    exact processRange_uploadFault d sp u fid udir s tr

/-- Every CSV write of the loop belongs to one of the iterated
windows, for a non-empty list, with that window's table. -/
theorem runRanges_writeCsv_kinds (d : Bool) (sp : Sp) (u fid udir : String)
    (l : List String) :
    ∀ s p dfx, Event.writeCsv p dfx ∈ (runRanges d sp u fid udir l s).2.1 →
      ∃ tr ∈ l,
        (p = pathJoin (pathJoin udir tr) "artists.csv" ∧ sp.topArtistsItems 20 tr ≠ []
            ∧ dfx = artistDf (sp.topArtistsItems 20 tr))
        ∨ (p = pathJoin (pathJoin udir tr) "tracks.csv" ∧ get_top_tracks sp tr 100 ≠ []
            ∧ dfx = trackCsvOf sp tr) := by
  induction l with
  | nil => intro s p dfx hmem; simp [runRanges] at hmem
  | cons tr rest ih =>
    intro s p dfx hmem
    rw [runRanges_cons] at hmem
    rcases List.mem_append.mp hmem with h | h
    · exact ⟨tr, List.mem_cons_self tr rest,
        processRange_writeCsv_kinds d sp u fid udir s tr p dfx h⟩
    · obtain ⟨tr2, htr2, hd⟩ := ih _ p dfx h
      exact ⟨tr2, List.mem_cons_of_mem tr htr2, hd⟩

/-- Every upload call of the loop names an iterated window's artist or
track file (for a non-empty list), under the folder handle `fid`. -/
theorem runRanges_upload_kinds (d : Bool) (sp : Sp) (u fid udir : String)
    (l : List String) :
    ∀ s a b c2, Event.uploadCall a b c2 ∈ (runRanges d sp u fid udir l s).2.1 →
      (∃ tr ∈ l,
        (b = driveFileName u tr "artists" ∧ sp.topArtistsItems 20 tr ≠ [])
        ∨ (b = driveFileName u tr "tracks" ∧ get_top_tracks sp tr 100 ≠ []))
      ∧ c2 = fid := by
  induction l with
  | nil => intro s a b c2 hmem; simp [runRanges] at hmem
  | cons tr rest ih =>
    intro s a b c2 hmem
    rw [runRanges_cons] at hmem
    rcases List.mem_append.mp hmem with h | h
    · obtain ⟨hd, hfid⟩ := processRange_upload_kinds d sp u fid udir s tr a b c2 h
      exact ⟨⟨tr, List.mem_cons_self tr rest, hd⟩, hfid⟩
    · obtain ⟨⟨tr2, htr2, hd⟩, hfid⟩ := ih _ a b c2 h
      exact ⟨⟨tr2, List.mem_cons_of_mem tr htr2, hd⟩, hfid⟩

/-- The loop logs no missing-parent `RuntimeError` when the client is
off or the folder handle is non-empty. -/
theorem runRanges_no_runtime_log (d : Bool) (sp : Sp) (u fid udir : String)
    (l : List String) (hor : d = false ∨ fid ≠ "") :
    ∀ s b m, Event.logUploadFailed b (PyErr.runtimeError m)
      ∉ (runRanges d sp u fid udir l s).2.1 := by
  induction l with
  | nil => intro s b m hmem; simp [runRanges] at hmem
  | cons tr rest ih =>
    intro s b m hmem
    rw [runRanges_cons] at hmem
    rcases List.mem_append.mp hmem with h | h
    · exact processRange_no_runtime_log d sp u fid udir s tr hor b m h
    · exact ih _ b m h

/-- A window of the loop with artists gets its artist CSV written. -/
theorem runRanges_artist_written (d : Bool) (sp : Sp) (u fid udir : String)
    (l : List String) (tr : String) (htr : tr ∈ l)
    (ha : sp.topArtistsItems 20 tr ≠ []) :
    ∀ s, Event.writeCsv (pathJoin (pathJoin udir tr) "artists.csv")
        (artistDf (sp.topArtistsItems 20 tr))
      ∈ (runRanges d sp u fid udir l s).2.1 := by
  induction l with
  | nil => cases htr
  | cons tr2 rest ih =>
    intro s
    rw [runRanges_cons]
    rcases List.mem_cons.mp htr with h | h
    · subst h
      exact List.mem_append_left _ (processRange_artist_written d sp u fid udir s tr ha)
    · exact List.mem_append_right _ (ih h _)

/-- A window of the loop with tracks gets its track CSV written. -/
theorem runRanges_tracks_written (d : Bool) (sp : Sp) (u fid udir : String)
    (l : List String) (tr : String) (htr : tr ∈ l)
    (ht : get_top_tracks sp tr 100 ≠ []) :
    ∀ s, Event.writeCsv (pathJoin (pathJoin udir tr) "tracks.csv") (trackCsvOf sp tr)
      ∈ (runRanges d sp u fid udir l s).2.1 := by
  induction l with
  | nil => cases htr
  | cons tr2 rest ih =>
    intro s
    rw [runRanges_cons]
    rcases List.mem_cons.mp htr with h | h
    · subst h
      exact List.mem_append_left _ (processRange_tracks_written d sp u fid udir s tr ht)
    · exact List.mem_append_right _ (ih h _)

/-- A window of the loop with artists gets an artist upload attempt
when the client is on and the folder handle non-empty. -/
theorem runRanges_artist_upload (sp : Sp) (u fid udir : String)
    (l : List String) (tr : String) (htr : tr ∈ l) (hfid : fid ≠ "")
    (ha : sp.topArtistsItems 20 tr ≠ []) :
    ∀ s, ∃ a, Event.uploadCall a (driveFileName u tr "artists") fid
      ∈ (runRanges true sp u fid udir l s).2.1 := by
  induction l with
  | nil => cases htr
  | cons tr2 rest ih =>
    intro s
    rw [runRanges_cons]
    rcases List.mem_cons.mp htr with h | h
    · subst h
      obtain ⟨a, hmem⟩ := processRange_artist_upload sp u fid udir s tr hfid ha
      exact ⟨a, List.mem_append_left _ hmem⟩
    · obtain ⟨a, hmem⟩ := ih h (processRange true sp u fid udir s tr2).1
      exact ⟨a, List.mem_append_right _ hmem⟩

/-- A window of the loop with tracks gets a track upload attempt when
the client is on and the folder handle non-empty. -/
theorem runRanges_tracks_upload (sp : Sp) (u fid udir : String)
    (l : List String) (tr : String) (htr : tr ∈ l) (hfid : fid ≠ "")
    (ht : get_top_tracks sp tr 100 ≠ []) :
    ∀ s, ∃ a, Event.uploadCall a (driveFileName u tr "tracks") fid
      ∈ (runRanges true sp u fid udir l s).2.1 := by
  induction l with
  | nil => cases htr
  | cons tr2 rest ih =>
    intro s
    rw [runRanges_cons]
    rcases List.mem_cons.mp htr with h | h
    · subst h
      obtain ⟨a, hmem⟩ := processRange_tracks_upload sp u fid udir s tr hfid ht
      exact ⟨a, List.mem_append_left _ hmem⟩
    · obtain ⟨a, hmem⟩ := ih h (processRange true sp u fid udir s tr2).1
      exact ⟨a, List.mem_append_right _ hmem⟩

/-- A faulty artist upload of a window in the loop is logged. -/
theorem runRanges_artist_fault_logged (sp : Sp) (u fid udir : String)
    (l : List String) (tr : String) (htr : tr ∈ l) (hfid : fid ≠ "")
    (ha : sp.topArtistsItems 20 tr ≠ []) {m : String} :
    ∀ s, s.uploadFault (driveFileName u tr "artists") = some m →
      Event.logUploadFailed (driveFileName u tr "artists") (PyErr.apiError m)
        ∈ (runRanges true sp u fid udir l s).2.1 := by
  induction l with
  | nil => cases htr
  | cons tr2 rest ih =>
    intro s hm
    rw [runRanges_cons]
    rcases List.mem_cons.mp htr with h | h
    · subst h
      exact List.mem_append_left _
        (processRange_artist_fault_logged sp u fid udir s tr hfid ha hm)
    · refine List.mem_append_right _ (ih h _ ?_)
      rw [processRange_uploadFault]
      exact hm

/-- A faulty track upload of a window in the loop is logged. -/
theorem runRanges_tracks_fault_logged (sp : Sp) (u fid udir : String)
    (l : List String) (tr : String) (htr : tr ∈ l) (hfid : fid ≠ "")
    (ht : get_top_tracks sp tr 100 ≠ []) {m : String} :
    ∀ s, s.uploadFault (driveFileName u tr "tracks") = some m →
      Event.logUploadFailed (driveFileName u tr "tracks") (PyErr.apiError m)
        ∈ (runRanges true sp u fid udir l s).2.1 := by
  induction l with
  | nil => cases htr
  | cons tr2 rest ih =>
    intro s hm
    rw [runRanges_cons]
    rcases List.mem_cons.mp htr with h | h
    · subst h
      exact List.mem_append_left _
        (processRange_tracks_fault_logged sp u fid udir s tr hfid ht hm)
    · refine List.mem_append_right _ (ih h _ ?_)
      rw [processRange_uploadFault]
      exact hm

/-! ## Lemmas about the whole collection run -/

/-- Closed form of a collection run whose folder resolution succeeds:
the per-user makedirs, the folder-resolution events, then the window
loop, finishing without an exception. -/
theorem save_all_user_data_shape (d : Bool) (F : String) (s : Store) (sp : Sp)
    (u c : String) (id : String)
    (hg : (get_or_create_user_folder d F s c).2.2 = Except.ok id) :
    save_all_user_data d F s sp u c
      = ((runRanges d sp u id (pathJoin "data" u) time_ranges
            (get_or_create_user_folder d F s c).1).1,
         Event.makedirs (pathJoin "data" u)
           :: ((get_or_create_user_folder d F s c).2.1
             ++ (runRanges d sp u id (pathJoin "data" u) time_ranges
                  (get_or_create_user_folder d F s c).1).2.1),
         Except.ok ()) := by
  rcases hgr : get_or_create_user_folder d F s c with ⟨s1, evs1, r⟩
  rw [hgr] at hg
  simp at hg
  subst hg
  unfold save_all_user_data
  rw [hgr]
  simp [runRanges_ok]

/-- Closed form of a collection run whose folder resolution raises:
the exception propagates and aborts the run before any window work. -/
theorem save_all_user_data_error_shape (d : Bool) (F : String) (s : Store) (sp : Sp)
    (u c : String) (e : PyErr)
    (hg : (get_or_create_user_folder d F s c).2.2 = Except.error e) :
    save_all_user_data d F s sp u c
      = ((get_or_create_user_folder d F s c).1,
         Event.makedirs (pathJoin "data" u) :: (get_or_create_user_folder d F s c).2.1,
         Except.error e) := by
  rcases hgr : get_or_create_user_folder d F s c with ⟨s1, evs1, r⟩
  rw [hgr] at hg
  simp at hg
  subst hg
  unfold save_all_user_data
  rw [hgr]
  simp

/-! ## Remaining helper lemmas for the claims -/

/-- Rank strings `"s+1", ..., "s+n"` are the decimal images of
`range' (s+1) n`. -/
theorem map_toString_shift (n : Nat) :
    ∀ s, (List.range' s n).map (fun i => toString (i + 1))
      = (List.range' (s + 1) n).map toString := by
  induction n with
  | zero => intro s; rfl
  | succ n ih =>
    intro s
    rw [List.range'_succ, List.range'_succ]
    simp only [List.map_cons]
    rw [ih (s + 1)]

/-- If every page for a window is empty, the paginated fetch returns
nothing. -/
theorem get_top_tracks_nil (sp : Sp) (tr : String)
    (h : ∀ lim off, sp.topTracksItems lim off tr = []) :
    get_top_tracks sp tr 100 = [] := by
  unfold get_top_tracks
  rw [get_top_tracksAux]
  simp [h]

/-- Folder resolution preserves the fault configuration. -/
theorem get_or_create_user_folder_uploadFault (d : Bool) (F : String) (s : Store)
    (c : String) :
    (get_or_create_user_folder d F s c).1.uploadFault = s.uploadFault := by
  unfold get_or_create_user_folder
  by_cases hd : d = false
  · simp [hd]
  · simp only [if_neg hd]
    unfold Store.listCallResult
    rcases hl : s.listFault with _ | msg
    · simp only
      rcases hL : (s.folders.filter fun f => f.matchesQ ⟨c, F⟩).take 5 with _ | ⟨f, rest⟩
      · rw [hL]
        unfold Store.createFolderCallResult
        rcases hc : s.createFolderFault with _ | msg2 <;> rfl
      · rw [hL]
    · rfl

/-- Without faults, folder resolution always succeeds. -/
theorem get_or_create_user_folder_ok (d : Bool) (F : String) (s : Store) (c : String)
    (hl : s.listFault = none) (hc : s.createFolderFault = none) :
    ∃ id, (get_or_create_user_folder d F s c).2.2 = Except.ok id := by
  by_cases hd : d = false
  · subst hd
    exact ⟨"", rfl⟩
  · rw [Bool.not_eq_false] at hd
    subst hd
    obtain ⟨id, s1, evs1, h1, _⟩ := get_or_create_user_folder_idem F s c hl hc
    exact ⟨id, by rw [h1]⟩

/-- A failed folder resolution reports a Drive API error (never the
upload `RuntimeError`). -/
theorem get_or_create_user_folder_error_kinds (d : Bool) (F : String) (s : Store)
    (c : String) :
    ∀ e, (get_or_create_user_folder d F s c).2.2 = Except.error e →
      ∃ msg, e = PyErr.apiError msg := by
  intro e he
  unfold get_or_create_user_folder at he
  by_cases hd : d = false
  · simp [hd] at he
  · simp only [if_neg hd] at he
    unfold Store.listCallResult at he
    rcases hl : s.listFault with _ | msg
    · rw [hl] at he
      simp only at he
      rcases hL : (s.folders.filter fun f => f.matchesQ ⟨c, F⟩).take 5 with _ | ⟨f, rest⟩
      · rw [hL] at he
        unfold Store.createFolderCallResult at he
        rcases hc : s.createFolderFault with _ | msg2 <;> rw [hc] at he <;> simp at he
        exact ⟨msg2, he.symm⟩
      · rw [hL] at he
        simp at he
    · rw [hl] at he
      simp at he
      exact ⟨msg, he.symm⟩

/-- Suffix distinctness of the per-window file paths. -/
theorem suffix_ne_of_mem {tr tr2 f1 f2 : String} (h1 : tr ∈ time_ranges)
    (h2 : tr2 ∈ time_ranges) (hne : tr2 ≠ tr)
    (hf1 : f1 ∈ (["artists.csv", "tracks.csv"] : List String))
    (hf2 : f2 ∈ (["artists.csv", "tracks.csv"] : List String)) :
    tr2 ++ ("/" ++ f1) ≠ tr ++ ("/" ++ f2) := by
  fin_cases h1 <;> fin_cases h2 <;> fin_cases hf1 <;> fin_cases hf2 <;>
    first
      | exact absurd rfl hne
      | decide

/-- Suffix distinctness of the per-window drive filenames. -/
theorem filename_suffix_ne_of_mem {tr tr2 s1 s2 : String} (h1 : tr ∈ time_ranges)
    (h2 : tr2 ∈ time_ranges) (hne : tr2 ≠ tr)
    (hs1 : s1 ∈ (["artists", "tracks"] : List String))
    (hs2 : s2 ∈ (["artists", "tracks"] : List String)) :
    "_" ++ (tr2 ++ ("_" ++ (s1 ++ ".csv"))) ≠ "_" ++ (tr ++ ("_" ++ (s2 ++ ".csv"))) := by
  fin_cases h1 <;> fin_cases h2 <;> fin_cases hs1 <;> fin_cases hs2 <;>
    first
      | exact absurd rfl hne
      | decide

/-- Within one window, distinct file suffixes give distinct strings. -/
theorem suffix_ne_same (tr : String) {x1 x2 : String} (h : x1 ≠ x2) :
    tr ++ x1 ≠ tr ++ x2 :=
  fun heq => h (strAppend_left_cancel heq)

/-- Within one window, the artist and track drive filenames differ. -/
theorem filename_suffix_ne_same (tr : String) {s1 s2 : String}
    (h : "_" ++ (s1 ++ ".csv") ≠ "_" ++ (s2 ++ ".csv")) :
    "_" ++ (tr ++ ("_" ++ (s1 ++ ".csv"))) ≠ "_" ++ (tr ++ ("_" ++ (s2 ++ ".csv"))) :=
  fun heq => h (strAppend_left_cancel (strAppend_left_cancel heq))

/-! ## Claim theorems -/

/-- C5: for every track record, the exported Artist column value is
the name of the first entry of the track's artist list, and the empty
string when that list is empty, `None`, or missing; the row builds
(the `[0]` indexing succeeds) for any shape of the artists field. -/
theorem C5_track_row_primary_artist (i : Nat) (t : TrackObj) :
    trackRow i t
      = some [toString (i + 1), t.name.getD "",
          (match t.artistsField with
           | none => ""
           | some [] => ""
           | some (a :: _) => a.name.getD ""), t.id.getD ""] :=
  trackRow_eq_some i t

/-- C10: for every `total_limit` and every provider, the track
pagination loop terminates — running it on fuel `total_limit + 1`
never exhausts the fuel and returns exactly the collected list. -/
theorem C10_pagination_terminates (sp : Sp) (tr : String) (total : Nat) :
    get_top_tracksFuel sp tr (total + 1) total 0 []
      = some (get_top_tracks sp tr total) :=
  get_top_tracksFuel_eq sp tr total (total + 1) 0 [] (by omega)

/-- C7: folder resolution is idempotent when no faults and no
concurrent creation occur: the first call succeeds with some handle,
and a second call with the same name and parent returns the same
handle from the unchanged store, issuing only a list call and no
folder creation. -/
theorem C7_folder_resolution_idempotent (F : String) (s : Store) (c : String)
    (hl : s.listFault = none) (hc : s.createFolderFault = none) :
    ∃ id s1 evs1,
      get_or_create_user_folder true F s c = (s1, evs1, Except.ok id)
      ∧ get_or_create_user_folder true F s1 c
          = (s1, [Event.listCall ⟨c, F⟩], Except.ok id) :=
  get_or_create_user_folder_idem F s c hl hc

/-- C7 witness: both branches at a concrete store. -/
theorem C7_folder_resolution_idempotent_witness :
    ∃ id s1 evs1,
      get_or_create_user_folder true "PARENT" wStore "Alice" = (s1, evs1, Except.ok id)
      ∧ get_or_create_user_folder true "PARENT" s1 "Alice"
          = (s1, [Event.listCall ⟨"Alice", "PARENT"⟩], Except.ok id) :=
  C7_folder_resolution_idempotent "PARENT" wStore "Alice" rfl rfl

/-- C8: a summary request without a session token is redirected to the
landing page, and with a session but no time-window parameter the
window defaults to `medium_term`. -/
theorem C8_summary_redirect_and_default (sess : SessionData)
    (args : List (String × String)) (sp : Sp) :
    (sess.spotify_token = none →
      summary sess args sp = SummaryResponse.redirectTo "index")
    ∧ (∀ t, sess.spotify_token = some t → t ≠ "" →
        args.lookup "time_range" = none →
        summary sess args sp
          = SummaryResponse.page (sess.display_name.getD "Unknown User") "medium_term"
              (sp.topArtistsItems 10 "medium_term") (sp.topTracksItems 10 0 "medium_term")) := by
  constructor
  · intro h
    simp [summary, pyTruthyStr, h]
  · intro t ht hne hlook
    have hemp : t.isEmpty = false := by
      rcases ht2 : t.isEmpty with _ | _
      · rfl
      · exact absurd ((String.isEmpty_iff t).mp ht2) hne
    simp [summary, pyTruthyStr, ht, hemp, hlook]

/-- C8 witness: the two behaviours at concrete sessions. -/
theorem C8_summary_redirect_and_default_witness :
    summary ⟨none, some "DN"⟩ [] wSp = SummaryResponse.redirectTo "index"
    ∧ summary ⟨some "tok", some "DN"⟩ [] wSp
        = SummaryResponse.page "DN" "medium_term"
            (wSp.topArtistsItems 10 "medium_term") (wSp.topTracksItems 10 0 "medium_term") :=
  ⟨(C8_summary_redirect_and_default ⟨none, some "DN"⟩ [] wSp).1 rfl,
   (C8_summary_redirect_and_default ⟨some "tok", some "DN"⟩ [] wSp).2 "tok" rfl
     (by decide) rfl⟩

/-- C1: for every window of the three and every limit-honouring
provider, the `totalLimit=100` track fetch returns at most 100 items;
every page request asks for at most 50 items; every non-final request
received a non-empty page (the loop stops, without error, as soon as a
page comes back empty); and the exported rows carry the items in
retrieval order with contiguous 1-based ranks. -/
theorem C1_track_fetch_bounded_paged_ranked (sp : Sp) (tr : String)
    (hsp : ∀ lim off w, (sp.topTracksItems lim off w).length ≤ lim)
    (htr : tr ∈ time_ranges) :
    (get_top_tracks sp tr 100).length ≤ 100
    ∧ (∀ p ∈ (get_top_tracksAux sp tr 100 0 [] []).2, p.1 ≤ 50)
    ∧ (∀ i p, ((get_top_tracksAux sp tr 100 0 [] []).2)[i]? = some p →
        i + 1 < (get_top_tracksAux sp tr 100 0 [] []).2.length →
        sp.topTracksItems p.1 p.2 tr ≠ [])
    ∧ trackDf (get_top_tracks sp tr 100) = some (trackCsvOf sp tr)
    ∧ (trackCsvOf sp tr).rows.length = (get_top_tracks sp tr 100).length
    ∧ (trackCsvOf sp tr).rows.map (fun r => r.headD "")
        = (List.range' 1 (get_top_tracks sp tr 100).length).map toString := by
  refine ⟨?_, ?_, ?_, trackDf_eq _, ?_, ?_⟩
  · exact get_top_tracksAux_length_le sp tr 100 hsp 0 [] [] rfl (by omega)
  · intro p hp
    rcases get_top_tracksAux_req_le sp tr 100 0 [] [] p hp with h | h
    · simp at h
    · exact h
  · intro i p hget hlt
    rcases get_top_tracksAux_stops_on_empty sp tr 100 0 [] [] i p hget hlt with h | h
    · simp at h
    · exact h
  · simp [trackCsvOf]
  · have hr := enumFrom_rank_cells trackRowCells (fun i t => rfl)
      (get_top_tracks sp tr 100) 0
    have he : (get_top_tracks sp tr 100).enum
        = List.enumFrom 0 (get_top_tracks sp tr 100) := rfl
    rw [trackCsvOf]
    simp only [he]
    rw [hr, map_toString_shift]

/-- C1 witness: a provider with 3 short-term tracks delivered in
honoured pages. -/
theorem C1_track_fetch_bounded_paged_ranked_witness :
    (∀ lim off w, (wSp.topTracksItems lim off w).length ≤ lim)
    ∧ ((get_top_tracks wSp "short_term" 100).length ≤ 100
    ∧ (∀ p ∈ (get_top_tracksAux wSp "short_term" 100 0 [] []).2, p.1 ≤ 50)
    ∧ (∀ i p, ((get_top_tracksAux wSp "short_term" 100 0 [] []).2)[i]? = some p →
        i + 1 < (get_top_tracksAux wSp "short_term" 100 0 [] []).2.length →
        wSp.topTracksItems p.1 p.2 "short_term" ≠ [])
    ∧ trackDf (get_top_tracks wSp "short_term" 100) = some (trackCsvOf wSp "short_term")
    ∧ (trackCsvOf wSp "short_term").rows.length
        = (get_top_tracks wSp "short_term" 100).length
    ∧ (trackCsvOf wSp "short_term").rows.map (fun r => r.headD "")
        = (List.range' 1 (get_top_tracks wSp "short_term" 100).length).map toString) := by
  have hsp : ∀ lim off w, (wSp.topTracksItems lim off w).length ≤ lim := by
    intro lim off w
    unfold wSp
    by_cases hw : w = "long_term"
    · simp [hw]
    · simp only [if_neg hw]
      rw [List.length_map, List.length_range]
      exact Nat.min_le_left _ _
  exact ⟨hsp,
    C1_track_fetch_bounded_paged_ranked wSp "short_term" hsp (by decide)⟩

/-- C6: a non-empty artist list exports a table with the fixed header
`Rank, Artist, ID`, exactly one data row per artist, rows in rank
order with ranks `1..n`, and the export creates the destination's
directory before writing the file. -/
theorem C6_artist_export_shape (artists : List ArtistObj) (hne : artists ≠ []) :
    (artistDf artists).header = ["Rank", "Artist", "ID"]
    ∧ (artistDf artists).rows.length = artists.length
    ∧ (artistDf artists).rows.map (fun r => r.headD "")
        = (List.range' 1 artists.length).map toString
    ∧ ∀ d s fp fn pid, ∃ tail,
        (save_and_upload d s (artistDf artists) fp fn pid).2
          = Event.makedirs (dirname fp) :: Event.writeCsv fp (artistDf artists) :: tail := by
  refine ⟨rfl, ?_, ?_, ?_⟩
  · simp [artistDf]
  · have hr := enumFrom_rank_cells
      (fun i a => [toString (i + 1), a.name.getD "", a.id.getD ""])
      (fun i a => rfl) artists 0
    have he : artists.enum = List.enumFrom 0 artists := rfl
    rw [artistDf]
    simp only [he]
    rw [hr, map_toString_shift]
  · intro d s fp fn pid
    exact save_and_upload_starts_with_write d s (artistDf artists) fp fn pid

/-- C6 witness: a one-artist list through a concrete export. -/
theorem C6_artist_export_shape_witness :
    (artistDf [⟨some "A1", some "id1"⟩]).header = ["Rank", "Artist", "ID"]
    ∧ (artistDf [⟨some "A1", some "id1"⟩]).rows.length = 1
    ∧ (artistDf [⟨some "A1", some "id1"⟩]).rows.map (fun r => r.headD "")
        = (List.range' 1 1).map toString
    ∧ ∃ tail, (save_and_upload false wStore (artistDf [⟨some "A1", some "id1"⟩])
          "data/U/short_term/artists.csv" "U_short_term_artists.csv" "").2
        = Event.makedirs (dirname "data/U/short_term/artists.csv")
          :: Event.writeCsv "data/U/short_term/artists.csv"
               (artistDf [⟨some "A1", some "id1"⟩]) :: tail := by
  have h := C6_artist_export_shape [⟨some "A1", some "id1"⟩] (by decide)
  refine ⟨h.1, ?_, h.2.2.1, h.2.2.2 false wStore
    "data/U/short_term/artists.csv" "U_short_term_artists.csv" ""⟩
  exact h.2.1.trans (by decide)

/-- C4: with an uninitialized client, folder resolution and upload are
no-ops returning the empty handle with no remote call, and the
collection run still completes and writes every non-empty local export
file. -/
theorem C4_uninitialized_degrades_to_local (F : String) (s : Store) (sp : Sp)
    (u c fp fn pid : String) :
    get_or_create_user_folder false F s c = (s, [], Except.ok "")
    ∧ upload_to_drive false s fp fn pid = (s, [], Except.ok "")
    ∧ (save_all_user_data false F s sp u c).2.2 = Except.ok ()
    ∧ ∀ tr ∈ time_ranges,
        (sp.topArtistsItems 20 tr ≠ [] →
          Event.writeCsv (pathJoin (pathJoin (pathJoin "data" u) tr) "artists.csv")
              (artistDf (sp.topArtistsItems 20 tr))
            ∈ (save_all_user_data false F s sp u c).2.1)
        ∧ (get_top_tracks sp tr 100 ≠ [] →
          Event.writeCsv (pathJoin (pathJoin (pathJoin "data" u) tr) "tracks.csv")
              (trackCsvOf sp tr)
            ∈ (save_all_user_data false F s sp u c).2.1) := by
  have hg : (get_or_create_user_folder false F s c).2.2 = Except.ok "" := rfl
  have hshape := save_all_user_data_shape false F s sp u c "" hg
  refine ⟨rfl, rfl, ?_, ?_⟩
  · rw [hshape]
  · intro tr htr
    constructor
    · intro ha
      rw [hshape]
      refine List.mem_cons_of_mem _ (List.mem_append_right _ ?_)
      exact runRanges_artist_written false sp u "" (pathJoin "data" u)
        time_ranges tr htr ha _
    · intro ht
      rw [hshape]
      refine List.mem_cons_of_mem _ (List.mem_append_right _ ?_)
      exact runRanges_tracks_written false sp u "" (pathJoin "data" u)
        time_ranges tr htr ht _

/-- C4 witness: concrete run with no client; the short-term artist and
track files are still written locally. -/
theorem C4_uninitialized_degrades_to_local_witness :
    get_or_create_user_folder false "PARENT" wStore "Alice" = (wStore, [], Except.ok "")
    ∧ upload_to_drive false wStore "p" "f" "x" = (wStore, [], Except.ok "")
    ∧ (save_all_user_data false "PARENT" wStore wSp "U" "Alice").2.2 = Except.ok ()
    ∧ Event.writeCsv (pathJoin (pathJoin (pathJoin "data" "U") "short_term") "artists.csv")
        (artistDf (wSp.topArtistsItems 20 "short_term"))
      ∈ (save_all_user_data false "PARENT" wStore wSp "U" "Alice").2.1
    ∧ Event.writeCsv (pathJoin (pathJoin (pathJoin "data" "U") "short_term") "tracks.csv")
        (trackCsvOf wSp "short_term")
      ∈ (save_all_user_data false "PARENT" wStore wSp "U" "Alice").2.1 := by
  have h := C4_uninitialized_degrades_to_local "PARENT" wStore wSp "U" "Alice" "p" "f" "x"
  have ht : get_top_tracks wSp "short_term" 100 ≠ [] := by
    simp [get_top_tracks, get_top_tracksAux, wSp]
  exact ⟨h.1, h.2.1, h.2.2.1,
    (h.2.2.2 "short_term" (by decide)).1 (by decide),
    (h.2.2.2 "short_term" (by decide)).2 ht⟩

/-- C9: the missing-parent `RuntimeError` branch is unreachable in the
pipeline: with an uninitialized client the upload returns the empty
handle before the parent check; with an initialized client (over a
store whose ids are non-empty) folder resolution never hands out an
empty id, the run never aborts with a `RuntimeError`, and no
`RuntimeError` is ever caught and logged. -/
theorem C9_runtime_error_unreachable (F : String) (s : Store) (sp : Sp) (u c : String)
    (hf : ∀ f ∈ s.folders, f.id ≠ "") (hm : ∀ n, s.mkId n ≠ "") :
    (∀ s2 fp fn, upload_to_drive false s2 fp fn "" = (s2, [], Except.ok ""))
    ∧ (∀ s1 evs id, get_or_create_user_folder true F s c = (s1, evs, Except.ok id) →
        id ≠ "")
    ∧ (∀ m, (save_all_user_data true F s sp u c).2.2
        ≠ Except.error (PyErr.runtimeError m))
    ∧ (∀ b m, Event.logUploadFailed b (PyErr.runtimeError m)
        ∉ (save_all_user_data true F s sp u c).2.1) := by
  refine ⟨fun s2 fp fn => rfl, get_or_create_user_folder_id_ne F s c hf hm, ?_, ?_⟩
  · intro m
    rcases hgr : (get_or_create_user_folder true F s c).2.2 with e | id
    · rw [save_all_user_data_error_shape true F s sp u c e hgr]
      obtain ⟨msg, hmsg⟩ := get_or_create_user_folder_error_kinds true F s c e hgr
      simp [hmsg]
    · rw [save_all_user_data_shape true F s sp u c id hgr]
      simp
  · intro b m hmem
    rcases hgr : (get_or_create_user_folder true F s c).2.2 with e | id
    · rw [save_all_user_data_error_shape true F s sp u c e hgr] at hmem
      rcases List.mem_cons.mp hmem with h | h
      · simp at h
      · rcases get_or_create_user_folder_event_kinds true F s c _ h with
          ⟨q, hq⟩ | ⟨nm, ps, hq⟩ <;> simp at hq
    · have hid : id ≠ "" := by
        have heq : get_or_create_user_folder true F s c
            = ((get_or_create_user_folder true F s c).1,
               (get_or_create_user_folder true F s c).2.1, Except.ok id) := by
          rw [← hgr]
        exact get_or_create_user_folder_id_ne F s c hf hm _ _ _ heq
      rw [save_all_user_data_shape true F s sp u c id hgr] at hmem
      rcases List.mem_cons.mp hmem with h | h
      · simp at h
      · rcases List.mem_append.mp h with h2 | h2
        · rcases get_or_create_user_folder_event_kinds true F s c _ h2 with
            ⟨q, hq⟩ | ⟨nm, ps, hq⟩ <;> simp at hq
        · exact runRanges_no_runtime_log true sp u id (pathJoin "data" u)
            time_ranges (Or.inr hid) _ b m h2

/-- C9 witness: a concrete initialized run over a store with non-empty
ids. -/
theorem C9_runtime_error_unreachable_witness :
    (∀ s2 fp fn, upload_to_drive false s2 fp fn "" = (s2, [], Except.ok ""))
    ∧ (∀ s1 evs id,
        get_or_create_user_folder true "PARENT" wStore "Alice" = (s1, evs, Except.ok id) →
        id ≠ "")
    ∧ (∀ m, (save_all_user_data true "PARENT" wStore wSp "U" "Alice").2.2
        ≠ Except.error (PyErr.runtimeError m))
    ∧ (∀ b m, Event.logUploadFailed b (PyErr.runtimeError m)
        ∉ (save_all_user_data true "PARENT" wStore wSp "U" "Alice").2.1) :=
  C9_runtime_error_unreachable "PARENT" wStore wSp "U" "Alice"
    (by intro f hf; simp [wStore] at hf)
    (by
      intro n
      show ("fid0" : String) ≠ ""
      decide)

/-- C2: per slot, a window for which the provider returns zero
artists gets no artist file and no artist upload attempt, a window
with zero tracks gets no track file and no track upload attempt, and
the run (absent folder faults) raises no error; in particular a window
with zero artists and zero tracks produces no files at all. -/
theorem C2_empty_slot_no_file_no_upload (d : Bool) (F : String) (s : Store)
    (sp : Sp) (u c tr : String) (htr : tr ∈ time_ranges)
    (hl : s.listFault = none) (hc : s.createFolderFault = none) :
    (save_all_user_data d F s sp u c).2.2 = Except.ok ()
    ∧ (sp.topArtistsItems 20 tr = [] →
        (∀ dfx, Event.writeCsv (pathJoin (pathJoin (pathJoin "data" u) tr) "artists.csv") dfx
            ∉ (save_all_user_data d F s sp u c).2.1)
        ∧ (∀ a pid, Event.uploadCall a (driveFileName u tr "artists") pid
            ∉ (save_all_user_data d F s sp u c).2.1))
    ∧ ((∀ lim off, sp.topTracksItems lim off tr = []) →
        (∀ dfx, Event.writeCsv (pathJoin (pathJoin (pathJoin "data" u) tr) "tracks.csv") dfx
            ∉ (save_all_user_data d F s sp u c).2.1)
        ∧ (∀ a pid, Event.uploadCall a (driveFileName u tr "tracks") pid
            ∉ (save_all_user_data d F s sp u c).2.1)) := by
  obtain ⟨id, hg⟩ := get_or_create_user_folder_ok d F s c hl hc
  have hshape := save_all_user_data_shape d F s sp u c id hg
  refine ⟨by rw [hshape], ?_, ?_⟩
  · intro ha
    constructor
    · intro dfx hmem
      rw [hshape] at hmem
      rcases List.mem_cons.mp hmem with h | h
      · simp at h
      · rcases List.mem_append.mp h with h2 | h2
        · rcases get_or_create_user_folder_event_kinds d F s c _ h2 with
            ⟨q, hq⟩ | ⟨nm, ps, hq⟩ <;> simp at hq
        · obtain ⟨tr2, htr2, hd2⟩ := runRanges_writeCsv_kinds d sp u id
            (pathJoin "data" u) time_ranges _ _ _ h2
          rcases hd2 with ⟨hp, hne2, _⟩ | ⟨hp, hne2, _⟩
          · by_cases he : tr2 = tr
            · subst he
              exact hne2 ha
            · exact pathJoin_data_ne u (suffix_ne_of_mem htr2 htr
                (fun hh => he hh.symm) (by decide) (by decide)) hp
          · by_cases he : tr2 = tr
            · rw [he] at hp
              exact pathJoin_data_ne u (suffix_ne_same tr (by decide)) hp
            · exact pathJoin_data_ne u (suffix_ne_of_mem htr2 htr
                (fun hh => he hh.symm) (by decide) (by decide)) hp
    · intro a pid hmem
      rw [hshape] at hmem
      rcases List.mem_cons.mp hmem with h | h
      · simp at h
      · rcases List.mem_append.mp h with h2 | h2
        · rcases get_or_create_user_folder_event_kinds d F s c _ h2 with
            ⟨q, hq⟩ | ⟨nm, ps, hq⟩ <;> simp at hq
        · obtain ⟨⟨tr2, htr2, hd2⟩, _⟩ := runRanges_upload_kinds d sp u id
            (pathJoin "data" u) time_ranges _ _ _ _ h2
          rcases hd2 with ⟨hb2, hne2⟩ | ⟨hb2, hne2⟩
          · by_cases he : tr2 = tr
            · subst he
              exact hne2 ha
            · exact driveFileName_ne u (filename_suffix_ne_of_mem htr2 htr
                (fun hh => he hh.symm) (by decide) (by decide)) hb2
          · by_cases he : tr2 = tr
            · rw [he] at hb2
              exact driveFileName_ne u (filename_suffix_ne_same tr (by decide)) hb2
            · exact driveFileName_ne u (filename_suffix_ne_of_mem htr2 htr
                (fun hh => he hh.symm) (by decide) (by decide)) hb2
  · intro ht
    have htrk : get_top_tracks sp tr 100 = [] := get_top_tracks_nil sp tr ht
    constructor
    · intro dfx hmem
      rw [hshape] at hmem
      rcases List.mem_cons.mp hmem with h | h
      · simp at h
      · rcases List.mem_append.mp h with h2 | h2
        · rcases get_or_create_user_folder_event_kinds d F s c _ h2 with
            ⟨q, hq⟩ | ⟨nm, ps, hq⟩ <;> simp at hq
        · obtain ⟨tr2, htr2, hd2⟩ := runRanges_writeCsv_kinds d sp u id
            (pathJoin "data" u) time_ranges _ _ _ h2
          rcases hd2 with ⟨hp, hne2, _⟩ | ⟨hp, hne2, _⟩
          · by_cases he : tr2 = tr
            · rw [he] at hp
              exact pathJoin_data_ne u (suffix_ne_same tr (by decide)) hp
            · exact pathJoin_data_ne u (suffix_ne_of_mem htr2 htr
                (fun hh => he hh.symm) (by decide) (by decide)) hp
          · by_cases he : tr2 = tr
            · subst he
              exact hne2 htrk
            · exact pathJoin_data_ne u (suffix_ne_of_mem htr2 htr
                (fun hh => he hh.symm) (by decide) (by decide)) hp
    · intro a pid hmem
      rw [hshape] at hmem
      rcases List.mem_cons.mp hmem with h | h
      · simp at h
      · rcases List.mem_append.mp h with h2 | h2
        · rcases get_or_create_user_folder_event_kinds d F s c _ h2 with
            ⟨q, hq⟩ | ⟨nm, ps, hq⟩ <;> simp at hq
        · obtain ⟨⟨tr2, htr2, hd2⟩, _⟩ := runRanges_upload_kinds d sp u id
            (pathJoin "data" u) time_ranges _ _ _ _ h2
          rcases hd2 with ⟨hb2, hne2⟩ | ⟨hb2, hne2⟩
          · by_cases he : tr2 = tr
            · rw [he] at hb2
              exact driveFileName_ne u (filename_suffix_ne_same tr (by decide)) hb2
            · exact driveFileName_ne u (filename_suffix_ne_of_mem htr2 htr
                (fun hh => he hh.symm) (by decide) (by decide)) hb2
          · by_cases he : tr2 = tr
            · subst he
              exact hne2 htrk
            · exact driveFileName_ne u (filename_suffix_ne_of_mem htr2 htr
                (fun hh => he hh.symm) (by decide) (by decide)) hb2

/-- C2 witness: a concrete run over a mixed provider: `medium_term`
has zero artists but a track (no artist file/upload for it), and
`short_term` has an artist but zero tracks (no track file/upload for
it). -/
theorem C2_empty_slot_no_file_no_upload_witness :
    (save_all_user_data true "PARENT" wStore wSpMixed "U" "Alice").2.2 = Except.ok ()
    ∧ (∀ dfx, Event.writeCsv
          (pathJoin (pathJoin (pathJoin "data" "U") "medium_term") "artists.csv") dfx
        ∉ (save_all_user_data true "PARENT" wStore wSpMixed "U" "Alice").2.1)
    ∧ (∀ a pid, Event.uploadCall a (driveFileName "U" "medium_term" "artists") pid
        ∉ (save_all_user_data true "PARENT" wStore wSpMixed "U" "Alice").2.1)
    ∧ (∀ dfx, Event.writeCsv
          (pathJoin (pathJoin (pathJoin "data" "U") "short_term") "tracks.csv") dfx
        ∉ (save_all_user_data true "PARENT" wStore wSpMixed "U" "Alice").2.1)
    ∧ (∀ a pid, Event.uploadCall a (driveFileName "U" "short_term" "tracks") pid
        ∉ (save_all_user_data true "PARENT" wStore wSpMixed "U" "Alice").2.1) := by
  have hmed := C2_empty_slot_no_file_no_upload true "PARENT" wStore wSpMixed "U" "Alice"
    "medium_term" (by decide) rfl rfl
  have hsh := C2_empty_slot_no_file_no_upload true "PARENT" wStore wSpMixed "U" "Alice"
    "short_term" (by decide) rfl rfl
  have hart := hmed.2.1 (by decide)
  have htrk := hsh.2.2 (fun lim off => rfl)
  exact ⟨hmed.1, hart.1, hart.2, htrk.1, htrk.2⟩

/-- C3 counterexample: with the client initialized, a failing Drive
folder-create call is not caught — the collection run aborts with the
propagated error, before any file is written or uploaded (the whole
trace is the makedirs and the two folder calls). -/
theorem C3_counterexample_create_error_aborts_run :
    (save_all_user_data true "PARENT" cexStore wSp "U" "Alice").2.2
        = Except.error (PyErr.apiError "boom")
    ∧ (save_all_user_data true "PARENT" cexStore wSp "U" "Alice").2.1
        = [Event.makedirs (pathJoin "data" "U"),
           Event.listCall ⟨"Alice", "PARENT"⟩,
           Event.createFolderCall "Alice" ["PARENT"]] := by
  have hg : (get_or_create_user_folder true "PARENT" cexStore "Alice").2.2
      = Except.error (PyErr.apiError "boom") := rfl
  rw [save_all_user_data_error_shape true "PARENT" cexStore wSp "U" "Alice" _ hg]
  exact ⟨rfl, rfl⟩

/-- C3 as amended: failures of individual upload calls (the
`files().create` upload inside `save_and_upload`'s `try`) are caught
at the call site, logged, and never abort the run — every non-empty
slot still attempts its upload; but folder list/create failures
propagate (see the counterexample). -/
theorem C3_amended_upload_failures_caught (d : Bool) (F : String) (s : Store)
    (sp : Sp) (u c : String)
    (hl : s.listFault = none) (hc : s.createFolderFault = none)
    (hf : ∀ f ∈ s.folders, f.id ≠ "") (hm : ∀ n, s.mkId n ≠ "") :
    (save_all_user_data d F s sp u c).2.2 = Except.ok ()
    ∧ (d = true → ∀ tr ∈ time_ranges,
        (sp.topArtistsItems 20 tr ≠ [] → ∃ a pid,
          Event.uploadCall a (driveFileName u tr "artists") pid
            ∈ (save_all_user_data d F s sp u c).2.1)
        ∧ (get_top_tracks sp tr 100 ≠ [] → ∃ a pid,
          Event.uploadCall a (driveFileName u tr "tracks") pid
            ∈ (save_all_user_data d F s sp u c).2.1)
        ∧ (∀ m2, sp.topArtistsItems 20 tr ≠ [] →
          s.uploadFault (driveFileName u tr "artists") = some m2 →
          Event.logUploadFailed (driveFileName u tr "artists") (PyErr.apiError m2)
            ∈ (save_all_user_data d F s sp u c).2.1)
        ∧ (∀ m2, get_top_tracks sp tr 100 ≠ [] →
          s.uploadFault (driveFileName u tr "tracks") = some m2 →
          Event.logUploadFailed (driveFileName u tr "tracks") (PyErr.apiError m2)
            ∈ (save_all_user_data d F s sp u c).2.1)) := by
  by_cases hd : d = false
  · subst hd
    have hshape := save_all_user_data_shape false F s sp u c "" rfl
    refine ⟨by rw [hshape], ?_⟩
    intro hdt
    exact absurd hdt (by decide)
  · rw [Bool.not_eq_false] at hd
    subst hd
    obtain ⟨id, s1, evs1, h1, _⟩ := get_or_create_user_folder_idem F s c hl hc
    have hg : (get_or_create_user_folder true F s c).2.2 = Except.ok id := by rw [h1]
    have hfid : id ≠ "" := get_or_create_user_folder_id_ne F s c hf hm _ _ _ h1
    have hshape := save_all_user_data_shape true F s sp u c id hg
    have hsf : (get_or_create_user_folder true F s c).1.uploadFault = s.uploadFault :=
      get_or_create_user_folder_uploadFault true F s c
    refine ⟨by rw [hshape], ?_⟩
    intro _ tr htr
    refine ⟨?_, ?_, ?_, ?_⟩
    · intro ha
      obtain ⟨a, hmem⟩ := runRanges_artist_upload sp u id (pathJoin "data" u)
        time_ranges tr htr hfid ha (get_or_create_user_folder true F s c).1
      refine ⟨a, id, ?_⟩
      rw [hshape]
      exact List.mem_cons_of_mem _ (List.mem_append_right _ hmem)
    · intro ht
      obtain ⟨a, hmem⟩ := runRanges_tracks_upload sp u id (pathJoin "data" u)
        time_ranges tr htr hfid ht (get_or_create_user_folder true F s c).1
      refine ⟨a, id, ?_⟩
      rw [hshape]
      exact List.mem_cons_of_mem _ (List.mem_append_right _ hmem)
    · intro m2 ha hm2
      have hm3 : (get_or_create_user_folder true F s c).1.uploadFault
          (driveFileName u tr "artists") = some m2 := by
        rw [hsf]
        exact hm2
      have hmem := runRanges_artist_fault_logged sp u id (pathJoin "data" u)
        time_ranges tr htr hfid ha (get_or_create_user_folder true F s c).1 hm3
      rw [hshape]
      exact List.mem_cons_of_mem _ (List.mem_append_right _ hmem)
    · intro m2 ht hm2
      have hm3 : (get_or_create_user_folder true F s c).1.uploadFault
          (driveFileName u tr "tracks") = some m2 := by
        rw [hsf]
        exact hm2
      have hmem := runRanges_tracks_fault_logged sp u id (pathJoin "data" u)
        time_ranges tr htr hfid ht (get_or_create_user_folder true F s c).1 hm3
      rw [hshape]
      exact List.mem_cons_of_mem _ (List.mem_append_right _ hmem)

/-- C3 amended witness: a concrete run where the short-term artist
upload fails — the run still finishes, the failed upload was attempted
and logged. -/
theorem C3_amended_upload_failures_caught_witness :
    (save_all_user_data true "PARENT" wStoreFault wSp "U" "Alice").2.2 = Except.ok ()
    ∧ (∃ a pid, Event.uploadCall a (driveFileName "U" "short_term" "artists") pid
        ∈ (save_all_user_data true "PARENT" wStoreFault wSp "U" "Alice").2.1)
    ∧ Event.logUploadFailed (driveFileName "U" "short_term" "artists")
          (PyErr.apiError "neterr")
        ∈ (save_all_user_data true "PARENT" wStoreFault wSp "U" "Alice").2.1 := by
  have h := C3_amended_upload_failures_caught true "PARENT" wStoreFault wSp "U" "Alice"
    rfl rfl (by intro f hf2; simp [wStoreFault] at hf2)
    (by
      intro n
      show ("fid0" : String) ≠ ""
      decide)
  have h2 := h.2 rfl "short_term" (by decide)
  exact ⟨h.1, h2.1 (by decide), h2.2.2.1 "neterr" (by decide) (by decide)⟩

end WrappedParty
